import Mathlib

/-
Verification of the cmaker campaign-asset pipeline.

This file gives a shallow embedding, in Lean 4, of the parts of the
cmaker source (src/cmaker/*.py) that the verified properties talk about:

* string helpers of CampaignProcessor (`_sanitize_product_name`,
  `_get_language_code`),
* the campaign loader (`CampaignLoader.load_campaign_briefs`),
* local raster geometry (`ImageProcessor.crop_to_ratio`) and the text
  overlay (`ImageProcessor.add_text_overlay`, `_find_optimal_text_layout`),
* the filesystem-level campaign workflow
  (`CampaignProcessor.process_all_campaigns`, `process_single_campaign`,
  `_process_single_product`, `_mark_campaign_done`) together with the
  file handling of `ImageGenerator` (`outpaint_with_dalle`,
  `generate_image_with_asset`, `create_asset_from_prompt`).

Remote API calls (OpenAI image generation / completion) and pixel-level
raster contents produced by the imaging library are external to the
repository; they are modelled as uninterpreted oracle parameters, while
every control-flow decision, file path, write, delete and exception of
the local code is embedded concretely from the source.
-/

namespace Cmaker

/-! ## Python character classes

`_sanitize_product_name` uses the regexes `[^a-zA-Z0-9\s-]` and `\s+`
(str patterns, hence Unicode `\s`), `str.strip()` and `str.lower()`.
`isPySpace` lists the characters matched by `\s` / stripped by `strip`
(ASCII whitespace plus the Unicode white-space code points). -/

def isPySpace (c : Char) : Bool :=
  c = ' ' || c = '\t' || c = '\n' || c = '\r' || c.toNat = 11 || c.toNat = 12 ||
  (28 ≤ c.toNat && c.toNat ≤ 31) || c.toNat = 133 || c.toNat = 160 ||
  c.toNat = 0x1680 || (0x2000 ≤ c.toNat && c.toNat ≤ 0x200a) ||
  c.toNat = 0x2028 || c.toNat = 0x2029 || c.toNat = 0x202f ||
  c.toNat = 0x205f || c.toNat = 0x3000

/-- Characters of the regex class `[a-zA-Z0-9]` (ASCII alphanumerics). -/
def isAsciiAlnum (c : Char) : Bool :=
  ('a' ≤ c && c ≤ 'z') || ('A' ≤ c && c ≤ 'Z') || ('0' ≤ c && c ≤ '9')

/-- A character survives the first substitution
`re.sub(r"[^a-zA-Z0-9\s-]", "", product)` iff it is in `[a-zA-Z0-9\s-]`. -/
def keepChar (c : Char) : Bool :=
  isAsciiAlnum c || isPySpace c || c = '-'

/-- ASCII lowercasing of one character, as `str.lower()` acts on the
ASCII range (after sanitization only ASCII characters remain, so this is
exactly the behaviour of the source's `.lower()` on its actual inputs). -/
def lowerChar (c : Char) : Char :=
  if c = 'A' then 'a' else if c = 'B' then 'b' else if c = 'C' then 'c'
  else if c = 'D' then 'd' else if c = 'E' then 'e' else if c = 'F' then 'f'
  else if c = 'G' then 'g' else if c = 'H' then 'h' else if c = 'I' then 'i'
  else if c = 'J' then 'j' else if c = 'K' then 'k' else if c = 'L' then 'l'
  else if c = 'M' then 'm' else if c = 'N' then 'n' else if c = 'O' then 'o'
  else if c = 'P' then 'p' else if c = 'Q' then 'q' else if c = 'R' then 'r'
  else if c = 'S' then 's' else if c = 'T' then 't' else if c = 'U' then 'u'
  else if c = 'V' then 'v' else if c = 'W' then 'w' else if c = 'X' then 'x'
  else if c = 'Y' then 'y' else if c = 'Z' then 'z' else c

/-- `str.strip()`: drop leading and trailing whitespace. -/
def stripList (l : List Char) : List Char :=
  ((l.dropWhile isPySpace).reverse.dropWhile isPySpace).reverse

/-- `re.sub(r"\s+", "_", s)`: every maximal run of whitespace becomes a
single underscore.  The boolean argument records whether the previous
character belonged to a whitespace run. -/
def collapseWS : List Char → Bool → List Char
  | [], _ => []
  | c :: cs, prev =>
    if isPySpace c then
      if prev then collapseWS cs true else '_' :: collapseWS cs true
    else c :: collapseWS cs false

/-- `CampaignProcessor._sanitize_product_name` on the character list:
strip the characters outside `[a-zA-Z0-9\s-]`, then `strip()` and
collapse whitespace runs to `_`, then lowercase. -/
def sanitizeList (l : List Char) : List Char :=
  (collapseWS (stripList (l.filter keepChar)) false).map lowerChar

/-- `CampaignProcessor._sanitize_product_name`. -/
def sanitizeProductName (s : String) : String :=
  String.mk (sanitizeList s.toList)

/-- Remove every underscore of a string (used to describe the effect of
a second sanitization pass). -/
def removeUnderscores (s : String) : String :=
  String.mk (s.toList.filter (fun c => c ≠ '_'))

/-! ## Language codes -/

/-- The fixed table of `CampaignProcessor._get_language_code`. -/
def languageCodes : List (String × String) :=
  [("English", "en"), ("German", "de"), ("French", "fr"), ("Spanish", "es"),
   ("Italian", "it"), ("Portuguese", "pt"), ("Dutch", "nl"), ("Russian", "ru"),
   ("Chinese", "zh"), ("Japanese", "ja"), ("Korean", "ko")]

/-- Python `dict.get` over an association list (exact key match). -/
def dictGet : List (String × String) → String → Option String
  | [], _ => none
  | (k, v) :: rest, q => if k = q then some v else dictGet rest q

set_option maxHeartbeats 1000000 in
/-- Every code point whose Python `str.lower()` image differs from
itself, with that image (as code points).  Enumerated from the
Unicode case mappings the `str` type implements; the single
multi-code-point image is U+0130 (LATIN CAPITAL LETTER I WITH DOT
ABOVE), which lowercases to two code points. -/
def lowerTable : List (Nat × List Nat) :=
  [(65, [97]), (66, [98]), (67, [99]), (68, [100]),
   (69, [101]), (70, [102]), (71, [103]), (72, [104]),
   (73, [105]), (74, [106]), (75, [107]), (76, [108]),
   (77, [109]), (78, [110]), (79, [111]), (80, [112]),
   (81, [113]), (82, [114]), (83, [115]), (84, [116]),
   (85, [117]), (86, [118]), (87, [119]), (88, [120]),
   (89, [121]), (90, [122]), (192, [224]), (193, [225]),
   (194, [226]), (195, [227]), (196, [228]), (197, [229]),
   (198, [230]), (199, [231]), (200, [232]), (201, [233]),
   (202, [234]), (203, [235]), (204, [236]), (205, [237]),
   (206, [238]), (207, [239]), (208, [240]), (209, [241]),
   (210, [242]), (211, [243]), (212, [244]), (213, [245]),
   (214, [246]), (216, [248]), (217, [249]), (218, [250]),
   (219, [251]), (220, [252]), (221, [253]), (222, [254]),
   (256, [257]), (258, [259]), (260, [261]), (262, [263]),
   (264, [265]), (266, [267]), (268, [269]), (270, [271]),
   (272, [273]), (274, [275]), (276, [277]), (278, [279]),
   (280, [281]), (282, [283]), (284, [285]), (286, [287]),
   (288, [289]), (290, [291]), (292, [293]), (294, [295]),
   (296, [297]), (298, [299]), (300, [301]), (302, [303]),
   (304, [105, 775]), (306, [307]), (308, [309]), (310, [311]),
   (313, [314]), (315, [316]), (317, [318]), (319, [320]),
   (321, [322]), (323, [324]), (325, [326]), (327, [328]),
   (330, [331]), (332, [333]), (334, [335]), (336, [337]),
   (338, [339]), (340, [341]), (342, [343]), (344, [345]),
   (346, [347]), (348, [349]), (350, [351]), (352, [353]),
   (354, [355]), (356, [357]), (358, [359]), (360, [361]),
   (362, [363]), (364, [365]), (366, [367]), (368, [369]),
   (370, [371]), (372, [373]), (374, [375]), (376, [255]),
   (377, [378]), (379, [380]), (381, [382]), (385, [595]),
   (386, [387]), (388, [389]), (390, [596]), (391, [392]),
   (393, [598]), (394, [599]), (395, [396]), (398, [477]),
   (399, [601]), (400, [603]), (401, [402]), (403, [608]),
   (404, [611]), (406, [617]), (407, [616]), (408, [409]),
   (412, [623]), (413, [626]), (415, [629]), (416, [417]),
   (418, [419]), (420, [421]), (422, [640]), (423, [424]),
   (425, [643]), (428, [429]), (430, [648]), (431, [432]),
   (433, [650]), (434, [651]), (435, [436]), (437, [438]),
   (439, [658]), (440, [441]), (444, [445]), (452, [454]),
   (453, [454]), (455, [457]), (456, [457]), (458, [460]),
   (459, [460]), (461, [462]), (463, [464]), (465, [466]),
   (467, [468]), (469, [470]), (471, [472]), (473, [474]),
   (475, [476]), (478, [479]), (480, [481]), (482, [483]),
   (484, [485]), (486, [487]), (488, [489]), (490, [491]),
   (492, [493]), (494, [495]), (497, [499]), (498, [499]),
   (500, [501]), (502, [405]), (503, [447]), (504, [505]),
   (506, [507]), (508, [509]), (510, [511]), (512, [513]),
   (514, [515]), (516, [517]), (518, [519]), (520, [521]),
   (522, [523]), (524, [525]), (526, [527]), (528, [529]),
   (530, [531]), (532, [533]), (534, [535]), (536, [537]),
   (538, [539]), (540, [541]), (542, [543]), (544, [414]),
   (546, [547]), (548, [549]), (550, [551]), (552, [553]),
   (554, [555]), (556, [557]), (558, [559]), (560, [561]),
   (562, [563]), (570, [11365]), (571, [572]), (573, [410]),
   (574, [11366]), (577, [578]), (579, [384]), (580, [649]),
   (581, [652]), (582, [583]), (584, [585]), (586, [587]),
   (588, [589]), (590, [591]), (880, [881]), (882, [883]),
   (886, [887]), (895, [1011]), (902, [940]), (904, [941]),
   (905, [942]), (906, [943]), (908, [972]), (910, [973]),
   (911, [974]), (913, [945]), (914, [946]), (915, [947]),
   (916, [948]), (917, [949]), (918, [950]), (919, [951]),
   (920, [952]), (921, [953]), (922, [954]), (923, [955]),
   (924, [956]), (925, [957]), (926, [958]), (927, [959]),
   (928, [960]), (929, [961]), (931, [963]), (932, [964]),
   (933, [965]), (934, [966]), (935, [967]), (936, [968]),
   (937, [969]), (938, [970]), (939, [971]), (975, [983]),
   (984, [985]), (986, [987]), (988, [989]), (990, [991]),
   (992, [993]), (994, [995]), (996, [997]), (998, [999]),
   (1000, [1001]), (1002, [1003]), (1004, [1005]), (1006, [1007]),
   (1012, [952]), (1015, [1016]), (1017, [1010]), (1018, [1019]),
   (1021, [891]), (1022, [892]), (1023, [893]), (1024, [1104]),
   (1025, [1105]), (1026, [1106]), (1027, [1107]), (1028, [1108]),
   (1029, [1109]), (1030, [1110]), (1031, [1111]), (1032, [1112]),
   (1033, [1113]), (1034, [1114]), (1035, [1115]), (1036, [1116]),
   (1037, [1117]), (1038, [1118]), (1039, [1119]), (1040, [1072]),
   (1041, [1073]), (1042, [1074]), (1043, [1075]), (1044, [1076]),
   (1045, [1077]), (1046, [1078]), (1047, [1079]), (1048, [1080]),
   (1049, [1081]), (1050, [1082]), (1051, [1083]), (1052, [1084]),
   (1053, [1085]), (1054, [1086]), (1055, [1087]), (1056, [1088]),
   (1057, [1089]), (1058, [1090]), (1059, [1091]), (1060, [1092]),
   (1061, [1093]), (1062, [1094]), (1063, [1095]), (1064, [1096]),
   (1065, [1097]), (1066, [1098]), (1067, [1099]), (1068, [1100]),
   (1069, [1101]), (1070, [1102]), (1071, [1103]), (1120, [1121]),
   (1122, [1123]), (1124, [1125]), (1126, [1127]), (1128, [1129]),
   (1130, [1131]), (1132, [1133]), (1134, [1135]), (1136, [1137]),
   (1138, [1139]), (1140, [1141]), (1142, [1143]), (1144, [1145]),
   (1146, [1147]), (1148, [1149]), (1150, [1151]), (1152, [1153]),
   (1162, [1163]), (1164, [1165]), (1166, [1167]), (1168, [1169]),
   (1170, [1171]), (1172, [1173]), (1174, [1175]), (1176, [1177]),
   (1178, [1179]), (1180, [1181]), (1182, [1183]), (1184, [1185]),
   (1186, [1187]), (1188, [1189]), (1190, [1191]), (1192, [1193]),
   (1194, [1195]), (1196, [1197]), (1198, [1199]), (1200, [1201]),
   (1202, [1203]), (1204, [1205]), (1206, [1207]), (1208, [1209]),
   (1210, [1211]), (1212, [1213]), (1214, [1215]), (1216, [1231]),
   (1217, [1218]), (1219, [1220]), (1221, [1222]), (1223, [1224]),
   (1225, [1226]), (1227, [1228]), (1229, [1230]), (1232, [1233]),
   (1234, [1235]), (1236, [1237]), (1238, [1239]), (1240, [1241]),
   (1242, [1243]), (1244, [1245]), (1246, [1247]), (1248, [1249]),
   (1250, [1251]), (1252, [1253]), (1254, [1255]), (1256, [1257]),
   (1258, [1259]), (1260, [1261]), (1262, [1263]), (1264, [1265]),
   (1266, [1267]), (1268, [1269]), (1270, [1271]), (1272, [1273]),
   (1274, [1275]), (1276, [1277]), (1278, [1279]), (1280, [1281]),
   (1282, [1283]), (1284, [1285]), (1286, [1287]), (1288, [1289]),
   (1290, [1291]), (1292, [1293]), (1294, [1295]), (1296, [1297]),
   (1298, [1299]), (1300, [1301]), (1302, [1303]), (1304, [1305]),
   (1306, [1307]), (1308, [1309]), (1310, [1311]), (1312, [1313]),
   (1314, [1315]), (1316, [1317]), (1318, [1319]), (1320, [1321]),
   (1322, [1323]), (1324, [1325]), (1326, [1327]), (1329, [1377]),
   (1330, [1378]), (1331, [1379]), (1332, [1380]), (1333, [1381]),
   (1334, [1382]), (1335, [1383]), (1336, [1384]), (1337, [1385]),
   (1338, [1386]), (1339, [1387]), (1340, [1388]), (1341, [1389]),
   (1342, [1390]), (1343, [1391]), (1344, [1392]), (1345, [1393]),
   (1346, [1394]), (1347, [1395]), (1348, [1396]), (1349, [1397]),
   (1350, [1398]), (1351, [1399]), (1352, [1400]), (1353, [1401]),
   (1354, [1402]), (1355, [1403]), (1356, [1404]), (1357, [1405]),
   (1358, [1406]), (1359, [1407]), (1360, [1408]), (1361, [1409]),
   (1362, [1410]), (1363, [1411]), (1364, [1412]), (1365, [1413]),
   (1366, [1414]), (4256, [11520]), (4257, [11521]), (4258, [11522]),
   (4259, [11523]), (4260, [11524]), (4261, [11525]), (4262, [11526]),
   (4263, [11527]), (4264, [11528]), (4265, [11529]), (4266, [11530]),
   (4267, [11531]), (4268, [11532]), (4269, [11533]), (4270, [11534]),
   (4271, [11535]), (4272, [11536]), (4273, [11537]), (4274, [11538]),
   (4275, [11539]), (4276, [11540]), (4277, [11541]), (4278, [11542]),
   (4279, [11543]), (4280, [11544]), (4281, [11545]), (4282, [11546]),
   (4283, [11547]), (4284, [11548]), (4285, [11549]), (4286, [11550]),
   (4287, [11551]), (4288, [11552]), (4289, [11553]), (4290, [11554]),
   (4291, [11555]), (4292, [11556]), (4293, [11557]), (4295, [11559]),
   (4301, [11565]), (5024, [43888]), (5025, [43889]), (5026, [43890]),
   (5027, [43891]), (5028, [43892]), (5029, [43893]), (5030, [43894]),
   (5031, [43895]), (5032, [43896]), (5033, [43897]), (5034, [43898]),
   (5035, [43899]), (5036, [43900]), (5037, [43901]), (5038, [43902]),
   (5039, [43903]), (5040, [43904]), (5041, [43905]), (5042, [43906]),
   (5043, [43907]), (5044, [43908]), (5045, [43909]), (5046, [43910]),
   (5047, [43911]), (5048, [43912]), (5049, [43913]), (5050, [43914]),
   (5051, [43915]), (5052, [43916]), (5053, [43917]), (5054, [43918]),
   (5055, [43919]), (5056, [43920]), (5057, [43921]), (5058, [43922]),
   (5059, [43923]), (5060, [43924]), (5061, [43925]), (5062, [43926]),
   (5063, [43927]), (5064, [43928]), (5065, [43929]), (5066, [43930]),
   (5067, [43931]), (5068, [43932]), (5069, [43933]), (5070, [43934]),
   (5071, [43935]), (5072, [43936]), (5073, [43937]), (5074, [43938]),
   (5075, [43939]), (5076, [43940]), (5077, [43941]), (5078, [43942]),
   (5079, [43943]), (5080, [43944]), (5081, [43945]), (5082, [43946]),
   (5083, [43947]), (5084, [43948]), (5085, [43949]), (5086, [43950]),
   (5087, [43951]), (5088, [43952]), (5089, [43953]), (5090, [43954]),
   (5091, [43955]), (5092, [43956]), (5093, [43957]), (5094, [43958]),
   (5095, [43959]), (5096, [43960]), (5097, [43961]), (5098, [43962]),
   (5099, [43963]), (5100, [43964]), (5101, [43965]), (5102, [43966]),
   (5103, [43967]), (5104, [5112]), (5105, [5113]), (5106, [5114]),
   (5107, [5115]), (5108, [5116]), (5109, [5117]), (7312, [4304]),
   (7313, [4305]), (7314, [4306]), (7315, [4307]), (7316, [4308]),
   (7317, [4309]), (7318, [4310]), (7319, [4311]), (7320, [4312]),
   (7321, [4313]), (7322, [4314]), (7323, [4315]), (7324, [4316]),
   (7325, [4317]), (7326, [4318]), (7327, [4319]), (7328, [4320]),
   (7329, [4321]), (7330, [4322]), (7331, [4323]), (7332, [4324]),
   (7333, [4325]), (7334, [4326]), (7335, [4327]), (7336, [4328]),
   (7337, [4329]), (7338, [4330]), (7339, [4331]), (7340, [4332]),
   (7341, [4333]), (7342, [4334]), (7343, [4335]), (7344, [4336]),
   (7345, [4337]), (7346, [4338]), (7347, [4339]), (7348, [4340]),
   (7349, [4341]), (7350, [4342]), (7351, [4343]), (7352, [4344]),
   (7353, [4345]), (7354, [4346]), (7357, [4349]), (7358, [4350]),
   (7359, [4351]), (7680, [7681]), (7682, [7683]), (7684, [7685]),
   (7686, [7687]), (7688, [7689]), (7690, [7691]), (7692, [7693]),
   (7694, [7695]), (7696, [7697]), (7698, [7699]), (7700, [7701]),
   (7702, [7703]), (7704, [7705]), (7706, [7707]), (7708, [7709]),
   (7710, [7711]), (7712, [7713]), (7714, [7715]), (7716, [7717]),
   (7718, [7719]), (7720, [7721]), (7722, [7723]), (7724, [7725]),
   (7726, [7727]), (7728, [7729]), (7730, [7731]), (7732, [7733]),
   (7734, [7735]), (7736, [7737]), (7738, [7739]), (7740, [7741]),
   (7742, [7743]), (7744, [7745]), (7746, [7747]), (7748, [7749]),
   (7750, [7751]), (7752, [7753]), (7754, [7755]), (7756, [7757]),
   (7758, [7759]), (7760, [7761]), (7762, [7763]), (7764, [7765]),
   (7766, [7767]), (7768, [7769]), (7770, [7771]), (7772, [7773]),
   (7774, [7775]), (7776, [7777]), (7778, [7779]), (7780, [7781]),
   (7782, [7783]), (7784, [7785]), (7786, [7787]), (7788, [7789]),
   (7790, [7791]), (7792, [7793]), (7794, [7795]), (7796, [7797]),
   (7798, [7799]), (7800, [7801]), (7802, [7803]), (7804, [7805]),
   (7806, [7807]), (7808, [7809]), (7810, [7811]), (7812, [7813]),
   (7814, [7815]), (7816, [7817]), (7818, [7819]), (7820, [7821]),
   (7822, [7823]), (7824, [7825]), (7826, [7827]), (7828, [7829]),
   (7838, [223]), (7840, [7841]), (7842, [7843]), (7844, [7845]),
   (7846, [7847]), (7848, [7849]), (7850, [7851]), (7852, [7853]),
   (7854, [7855]), (7856, [7857]), (7858, [7859]), (7860, [7861]),
   (7862, [7863]), (7864, [7865]), (7866, [7867]), (7868, [7869]),
   (7870, [7871]), (7872, [7873]), (7874, [7875]), (7876, [7877]),
   (7878, [7879]), (7880, [7881]), (7882, [7883]), (7884, [7885]),
   (7886, [7887]), (7888, [7889]), (7890, [7891]), (7892, [7893]),
   (7894, [7895]), (7896, [7897]), (7898, [7899]), (7900, [7901]),
   (7902, [7903]), (7904, [7905]), (7906, [7907]), (7908, [7909]),
   (7910, [7911]), (7912, [7913]), (7914, [7915]), (7916, [7917]),
   (7918, [7919]), (7920, [7921]), (7922, [7923]), (7924, [7925]),
   (7926, [7927]), (7928, [7929]), (7930, [7931]), (7932, [7933]),
   (7934, [7935]), (7944, [7936]), (7945, [7937]), (7946, [7938]),
   (7947, [7939]), (7948, [7940]), (7949, [7941]), (7950, [7942]),
   (7951, [7943]), (7960, [7952]), (7961, [7953]), (7962, [7954]),
   (7963, [7955]), (7964, [7956]), (7965, [7957]), (7976, [7968]),
   (7977, [7969]), (7978, [7970]), (7979, [7971]), (7980, [7972]),
   (7981, [7973]), (7982, [7974]), (7983, [7975]), (7992, [7984]),
   (7993, [7985]), (7994, [7986]), (7995, [7987]), (7996, [7988]),
   (7997, [7989]), (7998, [7990]), (7999, [7991]), (8008, [8000]),
   (8009, [8001]), (8010, [8002]), (8011, [8003]), (8012, [8004]),
   (8013, [8005]), (8025, [8017]), (8027, [8019]), (8029, [8021]),
   (8031, [8023]), (8040, [8032]), (8041, [8033]), (8042, [8034]),
   (8043, [8035]), (8044, [8036]), (8045, [8037]), (8046, [8038]),
   (8047, [8039]), (8072, [8064]), (8073, [8065]), (8074, [8066]),
   (8075, [8067]), (8076, [8068]), (8077, [8069]), (8078, [8070]),
   (8079, [8071]), (8088, [8080]), (8089, [8081]), (8090, [8082]),
   (8091, [8083]), (8092, [8084]), (8093, [8085]), (8094, [8086]),
   (8095, [8087]), (8104, [8096]), (8105, [8097]), (8106, [8098]),
   (8107, [8099]), (8108, [8100]), (8109, [8101]), (8110, [8102]),
   (8111, [8103]), (8120, [8112]), (8121, [8113]), (8122, [8048]),
   (8123, [8049]), (8124, [8115]), (8136, [8050]), (8137, [8051]),
   (8138, [8052]), (8139, [8053]), (8140, [8131]), (8152, [8144]),
   (8153, [8145]), (8154, [8054]), (8155, [8055]), (8168, [8160]),
   (8169, [8161]), (8170, [8058]), (8171, [8059]), (8172, [8165]),
   (8184, [8056]), (8185, [8057]), (8186, [8060]), (8187, [8061]),
   (8188, [8179]), (8486, [969]), (8490, [107]), (8491, [229]),
   (8498, [8526]), (8544, [8560]), (8545, [8561]), (8546, [8562]),
   (8547, [8563]), (8548, [8564]), (8549, [8565]), (8550, [8566]),
   (8551, [8567]), (8552, [8568]), (8553, [8569]), (8554, [8570]),
   (8555, [8571]), (8556, [8572]), (8557, [8573]), (8558, [8574]),
   (8559, [8575]), (8579, [8580]), (9398, [9424]), (9399, [9425]),
   (9400, [9426]), (9401, [9427]), (9402, [9428]), (9403, [9429]),
   (9404, [9430]), (9405, [9431]), (9406, [9432]), (9407, [9433]),
   (9408, [9434]), (9409, [9435]), (9410, [9436]), (9411, [9437]),
   (9412, [9438]), (9413, [9439]), (9414, [9440]), (9415, [9441]),
   (9416, [9442]), (9417, [9443]), (9418, [9444]), (9419, [9445]),
   (9420, [9446]), (9421, [9447]), (9422, [9448]), (9423, [9449]),
   (11264, [11312]), (11265, [11313]), (11266, [11314]), (11267, [11315]),
   (11268, [11316]), (11269, [11317]), (11270, [11318]), (11271, [11319]),
   (11272, [11320]), (11273, [11321]), (11274, [11322]), (11275, [11323]),
   (11276, [11324]), (11277, [11325]), (11278, [11326]), (11279, [11327]),
   (11280, [11328]), (11281, [11329]), (11282, [11330]), (11283, [11331]),
   (11284, [11332]), (11285, [11333]), (11286, [11334]), (11287, [11335]),
   (11288, [11336]), (11289, [11337]), (11290, [11338]), (11291, [11339]),
   (11292, [11340]), (11293, [11341]), (11294, [11342]), (11295, [11343]),
   (11296, [11344]), (11297, [11345]), (11298, [11346]), (11299, [11347]),
   (11300, [11348]), (11301, [11349]), (11302, [11350]), (11303, [11351]),
   (11304, [11352]), (11305, [11353]), (11306, [11354]), (11307, [11355]),
   (11308, [11356]), (11309, [11357]), (11310, [11358]), (11311, [11359]),
   (11360, [11361]), (11362, [619]), (11363, [7549]), (11364, [637]),
   (11367, [11368]), (11369, [11370]), (11371, [11372]), (11373, [593]),
   (11374, [625]), (11375, [592]), (11376, [594]), (11378, [11379]),
   (11381, [11382]), (11390, [575]), (11391, [576]), (11392, [11393]),
   (11394, [11395]), (11396, [11397]), (11398, [11399]), (11400, [11401]),
   (11402, [11403]), (11404, [11405]), (11406, [11407]), (11408, [11409]),
   (11410, [11411]), (11412, [11413]), (11414, [11415]), (11416, [11417]),
   (11418, [11419]), (11420, [11421]), (11422, [11423]), (11424, [11425]),
   (11426, [11427]), (11428, [11429]), (11430, [11431]), (11432, [11433]),
   (11434, [11435]), (11436, [11437]), (11438, [11439]), (11440, [11441]),
   (11442, [11443]), (11444, [11445]), (11446, [11447]), (11448, [11449]),
   (11450, [11451]), (11452, [11453]), (11454, [11455]), (11456, [11457]),
   (11458, [11459]), (11460, [11461]), (11462, [11463]), (11464, [11465]),
   (11466, [11467]), (11468, [11469]), (11470, [11471]), (11472, [11473]),
   (11474, [11475]), (11476, [11477]), (11478, [11479]), (11480, [11481]),
   (11482, [11483]), (11484, [11485]), (11486, [11487]), (11488, [11489]),
   (11490, [11491]), (11499, [11500]), (11501, [11502]), (11506, [11507]),
   (42560, [42561]), (42562, [42563]), (42564, [42565]), (42566, [42567]),
   (42568, [42569]), (42570, [42571]), (42572, [42573]), (42574, [42575]),
   (42576, [42577]), (42578, [42579]), (42580, [42581]), (42582, [42583]),
   (42584, [42585]), (42586, [42587]), (42588, [42589]), (42590, [42591]),
   (42592, [42593]), (42594, [42595]), (42596, [42597]), (42598, [42599]),
   (42600, [42601]), (42602, [42603]), (42604, [42605]), (42624, [42625]),
   (42626, [42627]), (42628, [42629]), (42630, [42631]), (42632, [42633]),
   (42634, [42635]), (42636, [42637]), (42638, [42639]), (42640, [42641]),
   (42642, [42643]), (42644, [42645]), (42646, [42647]), (42648, [42649]),
   (42650, [42651]), (42786, [42787]), (42788, [42789]), (42790, [42791]),
   (42792, [42793]), (42794, [42795]), (42796, [42797]), (42798, [42799]),
   (42802, [42803]), (42804, [42805]), (42806, [42807]), (42808, [42809]),
   (42810, [42811]), (42812, [42813]), (42814, [42815]), (42816, [42817]),
   (42818, [42819]), (42820, [42821]), (42822, [42823]), (42824, [42825]),
   (42826, [42827]), (42828, [42829]), (42830, [42831]), (42832, [42833]),
   (42834, [42835]), (42836, [42837]), (42838, [42839]), (42840, [42841]),
   (42842, [42843]), (42844, [42845]), (42846, [42847]), (42848, [42849]),
   (42850, [42851]), (42852, [42853]), (42854, [42855]), (42856, [42857]),
   (42858, [42859]), (42860, [42861]), (42862, [42863]), (42873, [42874]),
   (42875, [42876]), (42877, [7545]), (42878, [42879]), (42880, [42881]),
   (42882, [42883]), (42884, [42885]), (42886, [42887]), (42891, [42892]),
   (42893, [613]), (42896, [42897]), (42898, [42899]), (42902, [42903]),
   (42904, [42905]), (42906, [42907]), (42908, [42909]), (42910, [42911]),
   (42912, [42913]), (42914, [42915]), (42916, [42917]), (42918, [42919]),
   (42920, [42921]), (42922, [614]), (42923, [604]), (42924, [609]),
   (42925, [620]), (42926, [618]), (42928, [670]), (42929, [647]),
   (42930, [669]), (42931, [43859]), (42932, [42933]), (42934, [42935]),
   (42936, [42937]), (42938, [42939]), (42940, [42941]), (42942, [42943]),
   (42944, [42945]), (42946, [42947]), (42948, [42900]), (42949, [642]),
   (42950, [7566]), (42951, [42952]), (42953, [42954]), (42960, [42961]),
   (42966, [42967]), (42968, [42969]), (42997, [42998]), (65313, [65345]),
   (65314, [65346]), (65315, [65347]), (65316, [65348]), (65317, [65349]),
   (65318, [65350]), (65319, [65351]), (65320, [65352]), (65321, [65353]),
   (65322, [65354]), (65323, [65355]), (65324, [65356]), (65325, [65357]),
   (65326, [65358]), (65327, [65359]), (65328, [65360]), (65329, [65361]),
   (65330, [65362]), (65331, [65363]), (65332, [65364]), (65333, [65365]),
   (65334, [65366]), (65335, [65367]), (65336, [65368]), (65337, [65369]),
   (65338, [65370]), (66560, [66600]), (66561, [66601]), (66562, [66602]),
   (66563, [66603]), (66564, [66604]), (66565, [66605]), (66566, [66606]),
   (66567, [66607]), (66568, [66608]), (66569, [66609]), (66570, [66610]),
   (66571, [66611]), (66572, [66612]), (66573, [66613]), (66574, [66614]),
   (66575, [66615]), (66576, [66616]), (66577, [66617]), (66578, [66618]),
   (66579, [66619]), (66580, [66620]), (66581, [66621]), (66582, [66622]),
   (66583, [66623]), (66584, [66624]), (66585, [66625]), (66586, [66626]),
   (66587, [66627]), (66588, [66628]), (66589, [66629]), (66590, [66630]),
   (66591, [66631]), (66592, [66632]), (66593, [66633]), (66594, [66634]),
   (66595, [66635]), (66596, [66636]), (66597, [66637]), (66598, [66638]),
   (66599, [66639]), (66736, [66776]), (66737, [66777]), (66738, [66778]),
   (66739, [66779]), (66740, [66780]), (66741, [66781]), (66742, [66782]),
   (66743, [66783]), (66744, [66784]), (66745, [66785]), (66746, [66786]),
   (66747, [66787]), (66748, [66788]), (66749, [66789]), (66750, [66790]),
   (66751, [66791]), (66752, [66792]), (66753, [66793]), (66754, [66794]),
   (66755, [66795]), (66756, [66796]), (66757, [66797]), (66758, [66798]),
   (66759, [66799]), (66760, [66800]), (66761, [66801]), (66762, [66802]),
   (66763, [66803]), (66764, [66804]), (66765, [66805]), (66766, [66806]),
   (66767, [66807]), (66768, [66808]), (66769, [66809]), (66770, [66810]),
   (66771, [66811]), (66928, [66967]), (66929, [66968]), (66930, [66969]),
   (66931, [66970]), (66932, [66971]), (66933, [66972]), (66934, [66973]),
   (66935, [66974]), (66936, [66975]), (66937, [66976]), (66938, [66977]),
   (66940, [66979]), (66941, [66980]), (66942, [66981]), (66943, [66982]),
   (66944, [66983]), (66945, [66984]), (66946, [66985]), (66947, [66986]),
   (66948, [66987]), (66949, [66988]), (66950, [66989]), (66951, [66990]),
   (66952, [66991]), (66953, [66992]), (66954, [66993]), (66956, [66995]),
   (66957, [66996]), (66958, [66997]), (66959, [66998]), (66960, [66999]),
   (66961, [67000]), (66962, [67001]), (66964, [67003]), (66965, [67004]),
   (68736, [68800]), (68737, [68801]), (68738, [68802]), (68739, [68803]),
   (68740, [68804]), (68741, [68805]), (68742, [68806]), (68743, [68807]),
   (68744, [68808]), (68745, [68809]), (68746, [68810]), (68747, [68811]),
   (68748, [68812]), (68749, [68813]), (68750, [68814]), (68751, [68815]),
   (68752, [68816]), (68753, [68817]), (68754, [68818]), (68755, [68819]),
   (68756, [68820]), (68757, [68821]), (68758, [68822]), (68759, [68823]),
   (68760, [68824]), (68761, [68825]), (68762, [68826]), (68763, [68827]),
   (68764, [68828]), (68765, [68829]), (68766, [68830]), (68767, [68831]),
   (68768, [68832]), (68769, [68833]), (68770, [68834]), (68771, [68835]),
   (68772, [68836]), (68773, [68837]), (68774, [68838]), (68775, [68839]),
   (68776, [68840]), (68777, [68841]), (68778, [68842]), (68779, [68843]),
   (68780, [68844]), (68781, [68845]), (68782, [68846]), (68783, [68847]),
   (68784, [68848]), (68785, [68849]), (68786, [68850]), (71840, [71872]),
   (71841, [71873]), (71842, [71874]), (71843, [71875]), (71844, [71876]),
   (71845, [71877]), (71846, [71878]), (71847, [71879]), (71848, [71880]),
   (71849, [71881]), (71850, [71882]), (71851, [71883]), (71852, [71884]),
   (71853, [71885]), (71854, [71886]), (71855, [71887]), (71856, [71888]),
   (71857, [71889]), (71858, [71890]), (71859, [71891]), (71860, [71892]),
   (71861, [71893]), (71862, [71894]), (71863, [71895]), (71864, [71896]),
   (71865, [71897]), (71866, [71898]), (71867, [71899]), (71868, [71900]),
   (71869, [71901]), (71870, [71902]), (71871, [71903]), (93760, [93792]),
   (93761, [93793]), (93762, [93794]), (93763, [93795]), (93764, [93796]),
   (93765, [93797]), (93766, [93798]), (93767, [93799]), (93768, [93800]),
   (93769, [93801]), (93770, [93802]), (93771, [93803]), (93772, [93804]),
   (93773, [93805]), (93774, [93806]), (93775, [93807]), (93776, [93808]),
   (93777, [93809]), (93778, [93810]), (93779, [93811]), (93780, [93812]),
   (93781, [93813]), (93782, [93814]), (93783, [93815]), (93784, [93816]),
   (93785, [93817]), (93786, [93818]), (93787, [93819]), (93788, [93820]),
   (93789, [93821]), (93790, [93822]), (93791, [93823]), (125184, [125218]),
   (125185, [125219]), (125186, [125220]), (125187, [125221]), (125188, [125222]),
   (125189, [125223]), (125190, [125224]), (125191, [125225]), (125192, [125226]),
   (125193, [125227]), (125194, [125228]), (125195, [125229]), (125196, [125230]),
   (125197, [125231]), (125198, [125232]), (125199, [125233]), (125200, [125234]),
   (125201, [125235]), (125202, [125236]), (125203, [125237]), (125204, [125238]),
   (125205, [125239]), (125206, [125240]), (125207, [125241]), (125208, [125242]),
   (125209, [125243]), (125210, [125244]), (125211, [125245]), (125212, [125246]),
   (125213, [125247]), (125214, [125248]), (125215, [125249]), (125216, [125250]),
   (125217, [125251])
  ]

/-- Association lookup on code points. -/
def natLookup : List (Nat × List Nat) → Nat → Option (List Nat)
  | [], _ => none
  | (k, v) :: rest, n => if k = n then some v else natLookup rest n

/-- Python's `str.lower()` on one code point: the Unicode lowercase
image from `lowerTable`, or the code point itself when it has no
distinct lowercase form. -/
def pyLowerChar (c : Char) : List Char :=
  match natLookup lowerTable c.toNat with
  | some ns => ns.map Char.ofNat
  | none => [c]

/-- Python's `str.lower()` on a whole string. -/
def pyLower (s : String) : String :=
  String.mk ((s.toList.map pyLowerChar).join)

/-- Python slicing `s[:n]`: the first `n` characters (code points). -/
def strSlice (s : String) (n : Nat) : String :=
  String.mk (s.toList.take n)

/-- `CampaignProcessor._get_language_code`: table lookup, with fallback
`language.lower()[:2]` (Unicode-lowercase the whole name, then take its
first two characters). -/
def getLanguageCode (language : String) : String :=
  match dictGet languageCodes language with
  | some code => code
  | none => strSlice (pyLower language) 2

/-! ## Campaign loader

`CampaignLoader.load_campaign_briefs` iterates the entries of the
campaigns directory.  For each subdirectory it first inspects
`meta.yaml` and then `brief.yaml`.  The possible outcomes of
`yaml.safe_load` on each file are captured by the two state types
below; they follow the Python semantics exactly:

* a `meta.yaml` that fails to parse raises `yaml.YAMLError`, which the
  source catches (a warning is logged and the brief is still tried);
* a `meta.yaml` that parses to `None` (empty file) is falsy, so the
  `if meta_data and meta_data.get(...)` guard falls through;
* a `meta.yaml` that parses to a mapping is consulted for its `status`
  key (`meta_data.get("status", "")`): only the literal value `done`
  causes the campaign to be skipped (a mapping with no `status` key, or
  with any other value, behaves like `metaMap none` / `metaMap (some v)`
  with `v ≠ "done"`; an empty mapping is falsy and also falls through);
* a `meta.yaml` that parses to a truthy non-mapping value (a non-empty
  YAML list, or a non-empty scalar) passes the `meta_data and` guard
  and then makes `meta_data.get` raise `AttributeError`, which nothing
  in the loader catches (falsy non-mappings — `None`, empty list,
  `0`, `""` — short-circuit the guard and behave like `parsedNone`);
* a `brief.yaml` that fails to parse raises `yaml.YAMLError`, caught by
  the loader (error logged, campaign omitted);
* a `brief.yaml` that parses to `None` or to a non-mapping makes the
  item assignment `brief_data["campaign_name"] = ...` raise
  `TypeError`, which nothing catches. -/

inductive MetaState where
  | absent
  | parseFailed
  | parsedNone
  | metaMap (status : Option String)
  | metaNonMap
deriving DecidableEq

inductive BriefState where
  | absent
  | parseFailed
  | parsedNone
  | briefNonMap
  | briefMap (payload : Nat)
deriving DecidableEq

/-- One entry of `campaigns_path.iterdir()`. -/
structure CampaignEntry where
  name : String
  isDir : Bool
  meta : MetaState
  brief : BriefState
deriving DecidableEq

/-- A loaded brief: the parsed mapping (opaque payload) with the
injected `campaign_name` and `campaign_path`. -/
structure LoaderBrief where
  payload : Nat
  campaignName : String
  campaignPath : String
deriving DecidableEq

/-- Exceptions that can escape `load_campaign_briefs`. -/
inductive LoadErr where
  | attributeError
  | typeError
deriving DecidableEq

/-- Handling of a single directory entry inside the loop of
`CampaignLoader.load_campaign_briefs` (lines 27-51): returns `none` if
the entry contributes no brief, `some b` if it contributes `b`, or an
uncaught exception. -/
def loadEntry (campaignsDir : String) (e : CampaignEntry) :
    Except LoadErr (Option LoaderBrief) :=
  if !e.isDir then .ok none
  else
    let metaOutcome : Except LoadErr Bool :=
      match e.meta with
      | .absent => .ok false
      | .parseFailed => .ok false      -- warning logged, fall through
      | .parsedNone => .ok false       -- falsy, fall through
      | .metaMap st => .ok (st = some "done")
      | .metaNonMap => .error .attributeError
    match metaOutcome with
    | .error err => .error err
    | .ok true => .ok none             -- "Skipping completed campaign"
    | .ok false =>
      match e.brief with
      | .absent => .ok none
      | .parseFailed => .ok none       -- "Failed to parse", campaign omitted
      | .parsedNone => .error .typeError
      | .briefNonMap => .error .typeError
      | .briefMap pl =>
        .ok (some ⟨pl, e.name, campaignsDir ++ "/" ++ e.name⟩)

/-- `CampaignLoader.load_campaign_briefs`: fold the loop over the
directory listing, appending each contributed brief; an uncaught
exception aborts the whole call (no list is returned). -/
def loadCampaignBriefs (campaignsDir : String) :
    List CampaignEntry → Except LoadErr (List LoaderBrief)
  | [] => .ok []
  | e :: rest =>
    match loadEntry campaignsDir e with
    | .error err => .error err
    | .ok contributed =>
      match loadCampaignBriefs campaignsDir rest with
      | .error err => .error err
      | .ok bs =>
        .ok (match contributed with
             | some b => b :: bs
             | none => bs)

/-! ## Ratio cropping geometry

`ImageProcessor.crop_to_ratio` resizes the input to the fixed square
1536×1536 and then crops a hardcoded rectangle.  Pixel resampling is a
library concern; the geometry (what the claims are about) is embedded
exactly: a PIL `resize((w, h))` yields an image of size `w × h`
regardless of the input size, and `crop((l, u, r, b))` yields an image
of size `(r - l) × (b - u)`. -/

structure ImageGeom where
  width : Nat
  height : Nat
deriving DecidableEq

/-- Geometry of PIL `Image.resize((w, h))`. -/
def resizeGeom (_img : ImageGeom) (w h : Nat) : ImageGeom := ⟨w, h⟩

/-- Geometry of PIL `Image.crop((left, upper, right, lower))`. -/
def cropGeom (_img : ImageGeom) (left upper right lower : Nat) : ImageGeom :=
  ⟨right - left, lower - upper⟩

/-- The hardcoded crop rectangle for `"16x9"`: `(0, 336, 1536, 1200)`. -/
def cropBox16x9 : Nat × Nat × Nat × Nat := (0, 336, 1536, 1200)

/-- The hardcoded crop rectangle for `"9x16"`: `(336, 0, 1200, 1536)`. -/
def cropBox9x16 : Nat × Nat × Nat × Nat := (336, 0, 1200, 1536)

/-- `ImageProcessor.crop_to_ratio` (geometry): resize to 1536×1536 and
crop the fixed rectangle for the requested ratio; any other ratio
string raises `ValueError`.  The returned geometry is the image saved
to `out_path`. -/
def cropToAspect (image : ImageGeom) (aspect : String) :
    Except String ImageGeom :=
  if aspect = "16x9" then
    let resized := resizeGeom image 1536 1536
    .ok (cropGeom resized cropBox16x9.1 cropBox16x9.2.1
           cropBox16x9.2.2.1 cropBox16x9.2.2.2)
  else if aspect = "9x16" then
    let resized := resizeGeom image 1536 1536
    .ok (cropGeom resized cropBox9x16.1 cropBox9x16.2.1
           cropBox9x16.2.2.1 cropBox9x16.2.2.2)
  else
    .error ("Unsupported ratio: " ++ aspect)

/-! ## Text overlay

`ImageProcessor.add_text_overlay` works on PIL image objects, which
have reference semantics: `image.copy()`, `Image.new`, `convert` and
`alpha_composite` create fresh objects, while `ImageDraw` calls mutate
the drawn-on object in place.  To talk about (absence of) mutation, the
embedding threads an explicit heap of image objects; a reference is an
index into the heap.  Pixel contents produced by the imaging library
(blank images, rectangle/text drawing, mode conversion, alpha
compositing) and the font metrics of whichever font
`ImageProcessor._get_font` loads are external, so they are oracle
parameters; every size, mode, coordinate, allocation and in-place
update is embedded concretely from the source. -/

/-- Result of `font.getbbox(text)`. -/
structure Bbox where
  x0 : Int
  y0 : Int
  x1 : Int
  y1 : Int
deriving DecidableEq

/-- A PIL image object: size, mode, and opaque pixel contents. -/
structure PImg where
  width : Nat
  height : Nat
  mode : String
  px : Nat
deriving DecidableEq

/-- External raster/font behaviour.  `getbbox sz text` is the bounding
box reported by the font `_get_font(sz)` returns (a font is always
returned: `ImageFont.load_default()` is the final fallback, so the
`if font is None: continue` branch of the source is dead). -/
structure TextOracle where
  getbbox : Nat → String → Bbox
  blankPx : Nat → Nat → Nat
  rectPx : Nat → Int → Int → Int → Int → Nat
  textPx : Nat → Int → Int → String → Nat → Nat → Nat
  convertPx : Nat → Nat
  compositePx : Nat → Nat → Nat

/-- `Config.FONT_SIZE`. -/
def FONT_SIZE : Nat := 48

/-- `Config.TEXT_OPACITY`. -/
def TEXT_OPACITY : Nat := 200

/-- `str.strip()` on a whole string. -/
def pyStrip (s : String) : String := String.mk (stripList s.toList)

/-- The candidate font sizes `range(initial_font_size, 12, -4)` of
`_find_optimal_text_layout`: from the starting size down in steps of 4,
keeping only values strictly greater than 12 (so the effective floor is
16 when starting from the configured 48). -/
def candidateSizes (startSize : Nat) : List Nat :=
  (List.range ((startSize - 12 + 3) / 4)).map (fun k => startSize - 4 * k)

/-- `ImageProcessor._find_optimal_text_layout`: try the candidate sizes
largest-first, measure the text with the loaded font, and return the
first size whose bounding box fits `max_width × max_height`, together
with the measured text width and height; `none` when nothing fits. -/
def findOptimalTextLayout (o : TextOracle) (text : String) (startSize : Nat)
    (maxWidth maxHeight : Int) : Option (Nat × Int × Int) :=
  (candidateSizes startSize).findSome? (fun sz =>
    let b := o.getbbox sz text
    let textWidth := b.x1 - b.x0
    let textHeight := b.y1 - b.y0
    if textWidth ≤ maxWidth ∧ textHeight ≤ maxHeight then
      some (sz, textWidth, textHeight)
    else none)

/-- `int(n * MARGIN_PERCENTAGE)` with `MARGIN_PERCENTAGE = 0.05`,
modelled as the exact rational `5/100` with truncation. -/
def marginOf (n : Nat) : Nat := n * 5 / 100

/-- `available_width`/`available_height`: image dimension minus a
margin on both sides. -/
def availOf (n : Nat) : Int := (n : Int) - 2 * (marginOf n : Int)

/-- The layout search of `add_text_overlay` for a given input image:
starts at the configured `FONT_SIZE` with the margins derived from the
image size. -/
def overlayLayout (o : TextOracle) (image : PImg) (text : String) :
    Option (Nat × Int × Int) :=
  findOptimalTextLayout o text FONT_SIZE (availOf image.width) (availOf image.height)

/-- Read an image object from the heap. -/
def heapGet (heap : List PImg) (r : Nat) : PImg := heap.getD r ⟨0, 0, "", 0⟩

/-- Allocate a fresh image object, returning its reference. -/
def heapAlloc (heap : List PImg) (img : PImg) : Nat × List PImg :=
  (heap.length, heap ++ [img])

/-- `ImageProcessor.add_text_overlay` over the image heap: takes the
reference of the input image and the text, returns the reference of the
returned image and the final heap.  Every step follows the source
(image_processing.py lines 61-120); the function is total — the source
raises on no path. -/
def addTextOverlay (o : TextOracle) (heap : List PImg) (r : Nat) (text : String) :
    Nat × List PImg :=
  -- if not text or not text.strip(): return image
  if text = "" ∨ pyStrip text = "" then (r, heap)
  else
    let image := heapGet heap r
    -- img = image.copy()
    let (imgRef, heap1) := heapAlloc heap image
    let imgWidth := image.width
    let imgHeight := image.height
    -- margins: int(size * MARGIN_PERCENTAGE), with MARGIN_PERCENTAGE = 0.05
    let marginX : Int := (marginOf imgWidth : Nat)
    let marginY : Int := (marginOf imgHeight : Nat)
    match overlayLayout o image text with
    | none => (imgRef, heap1)   -- warning logged; return the untouched copy
    | some (fontSize, finalWidth, finalHeight) =>
      let x : Int := (imgWidth : Int) - finalWidth - marginX
      let y : Int := (imgHeight : Int) - finalHeight - marginY
      -- overlay = Image.new("RGBA", img.size, (0, 0, 0, 0))
      let (overlayRef, heap2) :=
        heapAlloc heap1 ⟨imgWidth, imgHeight, "RGBA", o.blankPx imgWidth imgHeight⟩
      -- overlay_draw.rectangle([...], fill=(0, 0, 0, 100)) mutates overlay
      let padding : Int := 10
      let ov2 := heapGet heap2 overlayRef
      let heap3 := heap2.set overlayRef
        { ov2 with px := o.rectPx ov2.px (x - padding) (y - padding)
                          (x + finalWidth + padding) (y + finalHeight + padding) }
      -- overlay_draw.text((x, y), final_text, font, fill=...) mutates overlay
      let ov3 := heapGet heap3 overlayRef
      let heap4 := heap3.set overlayRef
        { ov3 with px := o.textPx ov3.px x y text fontSize TEXT_OPACITY }
      -- if img.mode != "RGBA": img = img.convert("RGBA")  (convert allocates)
      let imgVal := heapGet heap4 imgRef
      let (imgRef2, heap5) :=
        if imgVal.mode ≠ "RGBA" then
          heapAlloc heap4 { imgVal with mode := "RGBA", px := o.convertPx imgVal.px }
        else (imgRef, heap4)
      -- img = Image.alpha_composite(img, overlay)  (allocates the result)
      let a := heapGet heap5 imgRef2
      let b := heapGet heap5 overlayRef
      let (resultRef, heap6) :=
        heapAlloc heap5 ⟨a.width, a.height, "RGBA", o.compositePx a.px b.px⟩
      (resultRef, heap6)

/-! ## Filesystem-level campaign processing

The campaign workflow (campaign_processing.py, image_generation.py) is
embedded over an explicit filesystem: a path is its list of components,
the store is an association list in which a write shadows older
entries.  Exceptions preserve the partial state, exactly as a Python
exception leaves already-written files on disk; computations live in
`EStateM PyErr FS`.  Remote OpenAI calls and the pixel contents of
images are oracle parameters (`RemoteOracle`); paths, writes, deletes,
ordering and exception propagation are embedded from the source. -/

abbrev FPath := List String

/-- File contents, as far as the claims observe them: the completion
marker records its `status` field; every other file is an image/bytes
payload with opaque contents.  (`_mark_campaign_done` also writes a
`completed_at` timestamp and optionally a `scene_prompt`; no claim
observes them, and `scene_prompt` is `None` at the only call site.) -/
inductive FileData where
  | metaFile (status : String)
  | imgFile (pid : Nat)
deriving DecidableEq

abbrev FS := List (FPath × FileData)

def fsRead : FS → FPath → Option FileData
  | [], _ => none
  | (q, v) :: rest, p => if q = p then some v else fsRead rest p

def fsWrite (fs : FS) (p : FPath) (v : FileData) : FS := (p, v) :: fs

def fsErase : FS → FPath → FS
  | [], _ => []
  | (q, v) :: rest, p => if q = p then fsErase rest p else (q, v) :: fsErase rest p

/-- Exceptions of the embedded workflow. -/
inductive PyErr where
  | apiFailure (code : Nat)     -- an OpenAI call raised
  | fileNotFound (p : FPath)    -- open/os.remove on a missing file
  | badImage (p : FPath)        -- Image.open on a non-image file
  | valueError                  -- crop_to_ratio on an unsupported ratio
deriving DecidableEq

abbrev ProcM (α : Type) := EStateM PyErr FS α

def readFile (p : FPath) : ProcM FileData := fun fs =>
  match fsRead fs p with
  | some v => .ok v fs
  | none => .error (.fileNotFound p) fs

def writeFile (p : FPath) (v : FileData) : ProcM Unit := fun fs =>
  .ok () (fsWrite fs p v)

/-- `os.remove` (raises `FileNotFoundError` on a missing file). -/
def removeFile (p : FPath) : ProcM Unit := fun fs =>
  match fsRead fs p with
  | some _ => .ok () (fsErase fs p)
  | none => .error (.fileNotFound p) fs

def fileExists (p : FPath) : ProcM Bool := fun fs =>
  .ok (fsRead fs p).isSome fs

/-- `Image.open(p)`: read the file and require image contents. -/
def openImage (p : FPath) : ProcM Nat := do
  match ← readFile p with
  | .imgFile px => pure px
  | .metaFile _ => throw (.badImage p)

/-- Configuration folder/file names. -/
def RESULTS_DIR : String := "results"
def ASSETS_DIR : String := "assets"

/-- Temporary files of `outpaint_with_dalle`: relative paths, i.e. in
the process working directory, outside every campaign folder. -/
def tempCanvasPath : FPath := ["temp_canvas.png"]
def tempMaskPath : FPath := ["temp_mask.png"]

/-- `pathlib.Path.stem`: the final component without its last suffix. -/
def fileStem (fname : String) : String :=
  let parts := fname.splitOn "."
  if parts.length ≤ 1 then fname
  else if parts.getLastD "" = "" then fname
  else if parts.headD "" = "" ∧ parts.length = 2 then fname
  else String.intercalate "." parts.dropLast

/-- `asset_path_obj.with_name(f"(stem)_mask.png")`: the sibling path the
debug lock mask is saved to (`Config.SAVE_MASK` is `True`). -/
def maskSibling (p : FPath) : FPath :=
  p.dropLast ++ [fileStem (p.getLastD "") ++ "_mask.png"]

/-- External behaviour: the OpenAI calls (which may raise — `.error
code`) and the pixel contents produced by local raster code, opaque at
this level.  Prompt generation and message translation are total
because the source catches every exception there and falls back. -/
structure RemoteOracle where
  /-- `PromptGenerator.create_campaign_prompt_with_llm(product_brief)`:
  the brief payload and the injected `product`/`asset` fields (injected
  only when the product name is truthy) determine the scene prompt. -/
  scenePrompt : Nat → Option (String × Option String) → String
  /-- `PromptGenerator.create_dalle_prompt(prompt)`. -/
  dallePrompt : String → String
  /-- `CampaignProcessor._translate_message(message, language)`. -/
  translate : String → String → String
  /-- Remote part of `ImageGenerator.create_asset_from_prompt`: the
  extraction completion plus `images.generate`, returning PNG bytes. -/
  generateAsset : String → Except Nat Nat
  /-- Remote part of `ImageGenerator.generate_image_with_asset`:
  `images.edit(model, image, prompt, size)` on the asset bytes. -/
  editWithAsset : Nat → String → Except Nat Nat
  /-- Remote part of `ImageGenerator.outpaint_with_dalle`:
  `images.edit(image, mask, prompt, ...)` plus base64 decoding. -/
  outpaintCall : Nat → Nat → String → Except Nat Nat
  /-- `ImageGenerator._make_lock_mask_from_asset`: lock-mask pixels
  derived from the asset's alpha channel. -/
  lockMaskPx : Nat → Nat
  /-- `ImageProcessor.prepare_canvas`: canvas pixels (scaled, centered
  on the 1024×1024 canvas) derived from the base image. -/
  canvasPx : Nat → Nat
  /-- `ImageGenerator._make_outpaint_mask(canvas, inner_box)`: the
  inner box is derived from the canvas preparation. -/
  outMaskPx : Nat → Nat
  /-- Pixels of `ImageProcessor.crop_to_ratio` for `"16x9"`/`"9x16"`. -/
  cropPx : Nat → String → Nat
  /-- Pixels of `ImageProcessor.add_text_overlay` on saved copies. -/
  overlayPx : Nat → String → Nat

/-- `ImageGenerator.create_asset_from_prompt(prompt, asset_path)`:
remote generation, then write the decoded PNG and return the path. -/
def createAssetFromPrompt (o : RemoteOracle) (prompt : String) (assetPath : FPath) :
    ProcM FPath := do
  match o.generateAsset prompt with
  | .error code => throw (.apiFailure code)
  | .ok px => do
    writeFile assetPath (.imgFile px)
    pure assetPath

/-- `ImageGenerator.generate_image_with_asset(asset_path, prompt,
out_path)`: open the asset, build (and — `SAVE_MASK` — save) the lock
mask, call `images.edit` (the mask is in fact not passed to the call),
write the decoded result to `out_path`. -/
def generateImageWithAsset (o : RemoteOracle) (assetPath : FPath) (prompt : String)
    (outPath : FPath) : ProcM FPath := do
  let assetPx ← openImage assetPath
  writeFile (maskSibling assetPath) (.imgFile (o.lockMaskPx assetPx))
  match o.editWithAsset assetPx prompt with
  | .error code => throw (.apiFailure code)
  | .ok px => do
    writeFile outPath (.imgFile px)
    pure outPath

/-- `ImageProcessor.prepare_canvas(input_image)`: open the base image
and build the canvas (the inner box is determined with it). -/
def prepareCanvas (o : RemoteOracle) (inputPath : FPath) : ProcM Nat := do
  let basePx ← openImage inputPath
  pure (o.canvasPx basePx)

/-- `ImageGenerator.outpaint_with_dalle(canvas, inner_box, prompt)`:
save canvas and outpaint mask to the two temporary files, call
`images.edit` with the prompt truncated to 999 characters, and — only
when the call returned — delete the temporary files.  An exception
from the call propagates with both temporary files still on disk. -/
def outpaintWithDalle (o : RemoteOracle) (canvas : Nat) (prompt : String) :
    ProcM Nat := do
  writeFile tempCanvasPath (.imgFile canvas)
  let mask := o.outMaskPx canvas
  writeFile tempMaskPath (.imgFile mask)
  let _ ← readFile tempCanvasPath   -- with open(temp_image_path, "rb")
  let _ ← readFile tempMaskPath     -- with open(temp_mask_path, "rb")
  match o.outpaintCall canvas mask (prompt.take 999) with
  | .error code => throw (.apiFailure code)
  | .ok px => do
    removeFile tempCanvasPath
    removeFile tempMaskPath
    pure px

/-- `ImageProcessor.crop_to_ratio(image, out_path, ratio)` at the
filesystem level: save the cropped pixels to `out_path` (geometry is
verified separately on `cropToAspect`). -/
def cropSave (o : RemoteOracle) (srcPx : Nat) (outPath : FPath) (aspect : String) :
    ProcM Unit := do
  if aspect = "16x9" ∨ aspect = "9x16" then
    writeFile outPath (.imgFile (o.cropPx srcPx aspect))
  else
    throw .valueError

/-- `CampaignProcessor._translate_message(message, language)`: returns
the message unchanged for English or a blank message, otherwise calls
the completion API — with a fallback to the original message on any
exception, so the function is total. -/
def translateMessage (o : RemoteOracle) (message language : String) : String :=
  if pyLower language = "english" ∨ pyStrip message = ""
  then message
  else o.translate message language

/-- A brief as `process_single_campaign` receives it from the loader:
`campaign_name`/`campaign_path` are always present (injected by the
loader); `products`, `assets`, `languages` and `message` are read with
`dict.get` defaults, so they are optional. -/
structure LoadedBrief where
  payload : Nat
  campaignName : String
  campaignPath : FPath
  products : Option (List String)
  assets : Option (List String)
  languages : Option (List String)
  message : Option String
deriving DecidableEq

/-- The marker path `campaign_path / "meta.yaml"`. -/
def metaPath (campaignPath : FPath) : FPath := campaignPath ++ ["meta.yaml"]

/-- `CampaignProcessor._mark_campaign_done(campaign_path)`: write the
`status: done` marker.  The write is wrapped in `try/except` in the
source, so this step never raises. -/
def markCampaignDone (campaignPath : FPath) : ProcM Unit := fun fs =>
  .ok () (fsWrite fs (metaPath campaignPath) (.metaFile "done"))

/-- The body of the per-language loop of
`CampaignProcessor._process_single_product` (lines 156-195): copy the
three base images into the language folder, and when the brief carries
a (truthy) message, translate it and overwrite the three copies with
text-overlaid versions. -/
def processOneLanguage (o : RemoteOracle) (message : String)
    (basePath p16x9 p9x16 : FPath) (productName assetName : String)
    (resultsPath : FPath) (language : String) : ProcM Unit := do
  let code := getLanguageCode language
  let langPath := resultsPath ++ [productName, code]
  -- directory creation is not modelled
  let basePx ← openImage basePath
  writeFile (langPath ++ ["1x1", assetName ++ "_1x1.png"]) (.imgFile basePx)
  let px16 ← openImage p16x9
  writeFile (langPath ++ ["16x9", assetName ++ "_16x9.png"]) (.imgFile px16)
  let px9 ← openImage p9x16
  writeFile (langPath ++ ["9x16", assetName ++ "_9x16.png"]) (.imgFile px9)
  if message ≠ "" then
    let translated := translateMessage o message language
    writeFile (langPath ++ ["1x1", assetName ++ "_1x1.png"])
      (.imgFile (o.overlayPx basePx translated))
    writeFile (langPath ++ ["16x9", assetName ++ "_16x9.png"])
      (.imgFile (o.overlayPx px16 translated))
    writeFile (langPath ++ ["9x16", assetName ++ "_9x16.png"])
      (.imgFile (o.overlayPx px9 translated))
  else
    pure ()

def processLanguageList (o : RemoteOracle) (message : String)
    (basePath p16x9 p9x16 : FPath) (productName assetName : String)
    (resultsPath : FPath) : List String → ProcM Unit
  | [] => pure ()
  | language :: rest => do
    processOneLanguage o message basePath p16x9 p9x16 productName assetName
      resultsPath language
    processLanguageList o message basePath p16x9 p9x16 productName assetName
      resultsPath rest

/-- Lines 105-110 of `_process_single_product`: if `asset_file` is
truthy and the file exists under the campaign's assets folder, use it
(path and stem), otherwise report nothing. -/
def resolveExistingAsset (campaignPath : FPath) :
    Option String → ProcM (Option (FPath × String))
  | some af =>
    if af = "" then pure none   -- Python: `if asset_file:` — "" is falsy
    else do
      let potential := campaignPath ++ [ASSETS_DIR, af]
      let ex ← fileExists potential
      if ex then pure (some (potential, fileStem af)) else pure none
  | none => pure none

/-- Lines 112-120 of `_process_single_product`: fall back to generating
the asset into the assets folder under the sanitized product name. -/
def resolveAssetOrCreate (o : RemoteOracle) (productName : String)
    (campaignPath : FPath) : Option (FPath × String) → ProcM (FPath × String)
  | some pair => pure pair
  | none => do
    let tempAssetPath := campaignPath ++ [ASSETS_DIR, productName ++ ".png"]
    let created ← createAssetFromPrompt o productName tempAssetPath
    pure (created, fileStem (productName ++ ".png"))

/-- `CampaignProcessor._process_single_product`: resolve or synthesize
the hero asset, generate the base 1×1 image, prepare the canvas,
outpaint, crop the 16:9 and 9:16 variants into the `base` folder, then
produce the per-language versions.  Any exception propagates. -/
def processSingleProduct (o : RemoteOracle) (payload : Nat) (message : String)
    (product : String) (assetFile : Option String)
    (resultsPath campaignPath : FPath) (languages : List String) : ProcM Unit := do
  let productName := sanitizeProductName product
  let existing ← resolveExistingAsset campaignPath assetFile
  let pair ← resolveAssetOrCreate o productName campaignPath existing
  let finalAssetPath := pair.1
  let assetName := pair.2
  -- product_brief: brief copy with product/asset injected when truthy
  let injected := if product ≠ "" then some (product, assetFile) else none
  let prompt := o.scenePrompt payload injected
  let basePath := resultsPath ++ [productName, "base", "1x1", assetName ++ "_1x1.png"]
  let _ ← generateImageWithAsset o finalAssetPath prompt basePath
  let canvas ← prepareCanvas o basePath
  let dallePrompt := o.dallePrompt prompt
  let outpainted ← outpaintWithDalle o canvas dallePrompt
  let _ ← openImage basePath   -- base_img = Image.open(str(base_path))
  let p16x9 := resultsPath ++ [productName, "base", "16x9", assetName ++ "_16x9.png"]
  let p9x16 := resultsPath ++ [productName, "base", "9x16", assetName ++ "_9x16.png"]
  cropSave o outpainted p16x9 "16x9"
  cropSave o outpainted p9x16 "9x16"
  processLanguageList o message basePath p16x9 p9x16 productName assetName
    resultsPath languages

/-- The product loop of `process_single_campaign` (lines 70-77):
`assets[i]` with `IndexError` handled as "no asset". -/
def productLoop (o : RemoteOracle) (payload : Nat) (message : String)
    (assets : List String) (resultsPath campaignPath : FPath)
    (languages : List String) : Nat → List String → ProcM Unit
  | _, [] => pure ()
  | i, product :: rest => do
    processSingleProduct o payload message product assets[i]? resultsPath
      campaignPath languages
    productLoop o payload message assets resultsPath campaignPath languages
      (i + 1) rest

/-- `CampaignProcessor.process_single_campaign(campaign_brief)`:
process every product, then — only reached when no product raised —
write the completion marker. -/
def processSingleCampaign (o : RemoteOracle) (b : LoadedBrief) : ProcM Unit := do
  let resultsPath := b.campaignPath ++ [RESULTS_DIR]
  -- results_path.mkdir(exist_ok=True): directories are not modelled
  let products := b.products.getD []
  let assets := b.assets.getD []
  let languages := b.languages.getD ["English"]
  let message := b.message.getD ""
  productLoop o b.payload message assets resultsPath b.campaignPath languages 0 products
  markCampaignDone b.campaignPath

/-- The per-campaign `try/except` of `process_all_campaigns` (lines
45-50): any exception is caught and logged, and the loop continues. -/
def guardCampaign (o : RemoteOracle) (b : LoadedBrief) : ProcM Unit := fun fs =>
  match processSingleCampaign o b fs with
  | .ok _ fs' => .ok () fs'
  | .error _ fs' => .ok () fs'

def campaignLoop (o : RemoteOracle) : List LoadedBrief → ProcM Unit
  | [] => pure ()
  | b :: rest => do
    guardCampaign o b
    campaignLoop o rest

/-- `CampaignProcessor.process_all_campaigns` on an already-loaded
brief list (loading itself is embedded as `loadCampaignBriefs`): early
return when no briefs were found, otherwise the guarded loop. -/
def processAllCampaigns (o : RemoteOracle) (briefs : List LoadedBrief) : ProcM Unit :=
  if briefs.isEmpty then pure () else campaignLoop o briefs

/-- Path `q` lies inside directory `pre` (componentwise prefix). -/
def underDir : FPath → FPath → Bool
  | [], _ => true
  | _, [] => false
  | a :: as, b :: bs => a = b && underDir as bs


/-- The state a computation's outcome carries (exceptions preserve the
partial state, like a Python exception leaves the disk). -/
def stateOf {α : Type} : EStateM.Result PyErr FS α → FS
  | .ok _ s => s
  | .error _ s => s

/-- `m` only ever writes or deletes paths satisfying `P`: from any
state, any path outside `P` reads the same after running `m`, whether
`m` succeeds or raises. -/
def PreservesOutside (P : FPath → Prop) {α : Type} (m : ProcM α) : Prop :=
  ∀ (fs : FS) (q : FPath), ¬ P q → fsRead (stateOf (m fs)) q = fsRead fs q

/-- What a campaign's run may touch: its own folder and the temporary
files. -/
def campaignWrites (campaignPath : FPath) (q : FPath) : Prop :=
  underDir campaignPath q = true ∨ q = tempCanvasPath ∨ q = tempMaskPath

/-! ## Lemmas: character facts -/

/-- `lowerChar` preserves the regex character classes and is
idempotent. -/
theorem lowerChar_facts (c : Char) :
    keepChar (lowerChar c) = keepChar c ∧ isPySpace (lowerChar c) = isPySpace c ∧
    lowerChar (lowerChar c) = lowerChar c := by
  by_cases h1 : c = 'A'
  · subst h1; exact ⟨by decide, by decide, by decide⟩
  by_cases h2 : c = 'B'
  · subst h2; exact ⟨by decide, by decide, by decide⟩
  by_cases h3 : c = 'C'
  · subst h3; exact ⟨by decide, by decide, by decide⟩
  by_cases h4 : c = 'D'
  · subst h4; exact ⟨by decide, by decide, by decide⟩
  by_cases h5 : c = 'E'
  · subst h5; exact ⟨by decide, by decide, by decide⟩
  by_cases h6 : c = 'F'
  · subst h6; exact ⟨by decide, by decide, by decide⟩
  by_cases h7 : c = 'G'
  · subst h7; exact ⟨by decide, by decide, by decide⟩
  by_cases h8 : c = 'H'
  · subst h8; exact ⟨by decide, by decide, by decide⟩
  by_cases h9 : c = 'I'
  · subst h9; exact ⟨by decide, by decide, by decide⟩
  by_cases h10 : c = 'J'
  · subst h10; exact ⟨by decide, by decide, by decide⟩
  by_cases h11 : c = 'K'
  · subst h11; exact ⟨by decide, by decide, by decide⟩
  by_cases h12 : c = 'L'
  · subst h12; exact ⟨by decide, by decide, by decide⟩
  by_cases h13 : c = 'M'
  · subst h13; exact ⟨by decide, by decide, by decide⟩
  by_cases h14 : c = 'N'
  · subst h14; exact ⟨by decide, by decide, by decide⟩
  by_cases h15 : c = 'O'
  · subst h15; exact ⟨by decide, by decide, by decide⟩
  by_cases h16 : c = 'P'
  · subst h16; exact ⟨by decide, by decide, by decide⟩
  by_cases h17 : c = 'Q'
  · subst h17; exact ⟨by decide, by decide, by decide⟩
  by_cases h18 : c = 'R'
  · subst h18; exact ⟨by decide, by decide, by decide⟩
  by_cases h19 : c = 'S'
  · subst h19; exact ⟨by decide, by decide, by decide⟩
  by_cases h20 : c = 'T'
  · subst h20; exact ⟨by decide, by decide, by decide⟩
  by_cases h21 : c = 'U'
  · subst h21; exact ⟨by decide, by decide, by decide⟩
  by_cases h22 : c = 'V'
  · subst h22; exact ⟨by decide, by decide, by decide⟩
  by_cases h23 : c = 'W'
  · subst h23; exact ⟨by decide, by decide, by decide⟩
  by_cases h24 : c = 'X'
  · subst h24; exact ⟨by decide, by decide, by decide⟩
  by_cases h25 : c = 'Y'
  · subst h25; exact ⟨by decide, by decide, by decide⟩
  by_cases h26 : c = 'Z'
  · subst h26; exact ⟨by decide, by decide, by decide⟩
  have he : lowerChar c = c := by
    unfold lowerChar
    rw [if_neg h1, if_neg h2, if_neg h3, if_neg h4, if_neg h5, if_neg h6, if_neg h7, if_neg h8, if_neg h9, if_neg h10, if_neg h11, if_neg h12, if_neg h13, if_neg h14, if_neg h15, if_neg h16, if_neg h17, if_neg h18, if_neg h19, if_neg h20, if_neg h21, if_neg h22, if_neg h23, if_neg h24, if_neg h25, if_neg h26]
  rw [he]
  exact ⟨rfl, rfl, he⟩

theorem lowerChar_keep (c : Char) : keepChar (lowerChar c) = keepChar c :=
  (lowerChar_facts c).1

theorem lowerChar_space (c : Char) : isPySpace (lowerChar c) = isPySpace c :=
  (lowerChar_facts c).2.1

theorem lowerChar_idem (c : Char) : lowerChar (lowerChar c) = lowerChar c :=
  (lowerChar_facts c).2.2

/-! ## Lemmas: sanitization -/

/-- Characters of a collapsed list are underscores or non-whitespace
characters of the original list. -/
theorem collapseWS_mem (l : List Char) : ∀ (b : Bool) (c : Char),
    c ∈ collapseWS l b → c = '_' ∨ (c ∈ l ∧ isPySpace c = false) := by
  induction l with
  | nil => intro b c h; simp [collapseWS] at h
  | cons a as ih =>
    intro b c h
    by_cases ha : isPySpace a
    · cases b with
      | true =>
        simp only [collapseWS, ha, if_true] at h
        rcases ih true c h with h_ | ⟨hm, hs⟩
        · exact Or.inl h_
        · exact Or.inr ⟨List.mem_cons_of_mem a hm, hs⟩
      | false =>
        simp only [collapseWS, ha, if_true] at h
        rcases List.mem_cons.1 h with h_ | h2
        · exact Or.inl h_
        · rcases ih true c h2 with h_ | ⟨hm, hs⟩
          · exact Or.inl h_
          · exact Or.inr ⟨List.mem_cons_of_mem a hm, hs⟩
    · have ha' : isPySpace a = false := by
        revert ha; cases hv : isPySpace a <;> simp
      simp only [collapseWS, ha', if_false] at h
      rcases List.mem_cons.1 h with h_ | h2
      · rw [h_]; exact Or.inr ⟨List.mem_cons_self a as, ha'⟩
      · rcases ih false c h2 with h_ | ⟨hm, hs⟩
        · exact Or.inl h_
        · exact Or.inr ⟨List.mem_cons_of_mem a hm, hs⟩

theorem stripList_subset {c : Char} {l : List Char} (h : c ∈ stripList l) : c ∈ l := by
  unfold stripList at h
  have h1 := List.mem_reverse.1 h
  have h2 := (List.dropWhile_sublist _).subset h1
  have h3 := List.mem_reverse.1 h2
  exact (List.dropWhile_sublist _).subset h3

/-- Every character of a sanitized name is non-whitespace, already
lowercase, and survives the strip regex iff it is not an underscore. -/
theorem mem_sanitizeList {c : Char} {l : List Char} (h : c ∈ sanitizeList l) :
    isPySpace c = false ∧ lowerChar c = c ∧ keepChar c = decide (c ≠ '_') := by
  unfold sanitizeList at h
  rcases List.mem_map.1 h with ⟨d, hd, rfl⟩
  rcases collapseWS_mem _ _ _ hd with h_ | ⟨hdm, hsp⟩
  · subst h_; exact ⟨by decide, by decide, by decide⟩
  · have hk : keepChar d = true :=
      List.of_mem_filter (stripList_subset hdm)
    refine ⟨?_, lowerChar_idem d, ?_⟩
    · rw [lowerChar_space d]; exact hsp
    · have h2 : keepChar (lowerChar d) = true := by rw [lowerChar_keep]; exact hk
      have h3 : lowerChar d ≠ '_' := by
        intro he; rw [he] at h2; exact absurd h2 (by decide)
      rw [h2]; simp [h3]

theorem dropWhile_eq_self_of {p : Char → Bool} {l : List Char}
    (h : ∀ c ∈ l, p c = false) : l.dropWhile p = l := by
  cases l with
  | nil => rfl
  | cons a as => simp [List.dropWhile_cons, h a (List.mem_cons_self a as)]

theorem stripList_eq_self_of {l : List Char}
    (h : ∀ c ∈ l, isPySpace c = false) : stripList l = l := by
  unfold stripList
  rw [dropWhile_eq_self_of h,
      dropWhile_eq_self_of (fun c hc => h c (List.mem_reverse.1 hc)),
      List.reverse_reverse]

theorem collapseWS_eq_self_of : ∀ (l : List Char), (∀ c ∈ l, isPySpace c = false) →
    ∀ b, collapseWS l b = l := by
  intro l
  induction l with
  | nil => intro _ b; rfl
  | cons a as ih =>
    intro h b
    have ha := h a (List.mem_cons_self a as)
    simp [collapseWS, ha, ih (fun c hc => h c (List.mem_cons_of_mem a hc))]

theorem map_eq_self_of {f : Char → Char} {l : List Char}
    (h : ∀ c ∈ l, f c = c) : l.map f = l := by
  rw [List.map_congr_left h]
  exact List.map_id' l

/-- A second sanitization pass deletes exactly the underscores that the
whitespace-collapsing step introduced (and changes nothing else). -/
theorem sanitizeList_twice (l : List Char) :
    sanitizeList (sanitizeList l) = (sanitizeList l).filter (fun c => c ≠ '_') := by
  have hmem := fun c hc => @mem_sanitizeList c l hc
  have expand : ∀ m : List Char,
      sanitizeList m = (collapseWS (stripList (m.filter keepChar)) false).map lowerChar :=
    fun m => rfl
  rw [expand (sanitizeList l)]
  rw [List.filter_congr (fun a ha => (hmem a ha).2.2)]
  have hsub : ∀ c ∈ (sanitizeList l).filter (fun c => decide (c ≠ '_')),
      isPySpace c = false :=
    fun c hc => (hmem c (List.mem_of_mem_filter hc)).1
  rw [stripList_eq_self_of hsub, collapseWS_eq_self_of _ hsub false,
      map_eq_self_of (fun c hc => (hmem c (List.mem_of_mem_filter hc)).2.1)]

theorem keepChar_comp_lower : keepChar ∘ lowerChar = keepChar :=
  funext fun c => lowerChar_keep c

theorem isPySpace_comp_lower : isPySpace ∘ lowerChar = isPySpace :=
  funext fun c => lowerChar_space c

theorem stripList_map_lower (l : List Char) :
    stripList (l.map lowerChar) = (stripList l).map lowerChar := by
  unfold stripList
  rw [List.dropWhile_map, isPySpace_comp_lower, ← List.map_reverse,
      List.dropWhile_map, isPySpace_comp_lower, ← List.map_reverse]

theorem collapseWS_map_lower : ∀ (l : List Char) (b : Bool),
    collapseWS (l.map lowerChar) b = (collapseWS l b).map lowerChar := by
  intro l
  induction l with
  | nil => intro b; rfl
  | cons a as ih =>
    intro b
    by_cases ha : isPySpace a
    · have ha2 : isPySpace (lowerChar a) = true := by rw [lowerChar_space]; exact ha
      cases b with
      | true => simp [collapseWS, ha, ha2, ih]
      | false => simp [collapseWS, ha, ha2, ih]; decide
    · have ha' : isPySpace a = false := by revert ha; cases isPySpace a <;> simp
      have ha2 : isPySpace (lowerChar a) = false := by rw [lowerChar_space]; exact ha'
      simp [collapseWS, ha', ha2, ih]

/-- Sanitization only sees the lowercased input. -/
theorem sanitizeList_map_lower (l : List Char) :
    sanitizeList (l.map lowerChar) = sanitizeList l := by
  unfold sanitizeList
  rw [List.filter_map, keepChar_comp_lower, stripList_map_lower,
      collapseWS_map_lower, List.map_map]
  have : lowerChar ∘ lowerChar = lowerChar := funext fun c => lowerChar_idem c
  rw [this]

/-- Positions holding stripped characters in both lists do not affect
the filter step. -/
theorem filter_keep_eq_of_forall₂ : ∀ {l₁ l₂ : List Char},
    List.Forall₂ (fun a b => a = b ∨ (keepChar a = false ∧ keepChar b = false)) l₁ l₂ →
    l₁.filter keepChar = l₂.filter keepChar := by
  intro l₁ l₂ h
  induction h with
  | nil => rfl
  | cons hrel _ ih =>
    rcases hrel with h_ | ⟨hka, hkb⟩
    · rw [h_]; simp only [List.filter_cons]; rw [ih]
    · simp only [List.filter_cons, hka, hkb]; simpa using ih

theorem toList_mk (l : List Char) : (String.mk l).toList = l := rfl

/-! ## Claim C5: sanitization idempotence and collapsing -/

/-- Claim C5 (counterexample): `_sanitize_product_name` is NOT
idempotent — `"Fresh Juice"` sanitizes to `"fresh_juice"`, whose second
pass strips the introduced underscore to `"freshjuice"`; and two inputs
differing only in one punctuation character need not collapse — the
hyphen is preserved while the period is stripped, so `"a-b"` and
`"a.b"` sanitize to the distinct `"a-b"` and `"ab"`. -/
theorem sanitize_idempotence_cex :
    sanitizeProductName (sanitizeProductName "Fresh Juice") ≠
      sanitizeProductName "Fresh Juice" ∧
    sanitizeProductName "a-b" ≠ sanitizeProductName "a.b" := by
  constructor
  · decide
  · decide

/-- Claim C5 (amended): a second sanitization pass equals removing the
underscores of the first pass's output, so sanitization is idempotent
exactly on inputs whose sanitized form has no underscore; inputs
differing only by letter case collapse to the same output; and inputs
differing only at positions where both hold stripped characters
(anything outside `[a-zA-Z0-9\s-]` — punctuation other than the
preserved hyphen) collapse to the same output. -/
theorem sanitize_amended :
    (∀ s : String, sanitizeProductName (sanitizeProductName s) =
        removeUnderscores (sanitizeProductName s)) ∧
    (∀ s : String, '_' ∉ (sanitizeProductName s).toList →
        sanitizeProductName (sanitizeProductName s) = sanitizeProductName s) ∧
    (∀ s t : String, s.toList.map lowerChar = t.toList.map lowerChar →
        sanitizeProductName s = sanitizeProductName t) ∧
    (∀ s t : String, List.Forall₂
        (fun a b => a = b ∨ (keepChar a = false ∧ keepChar b = false))
        s.toList t.toList →
        sanitizeProductName s = sanitizeProductName t) := by
  refine ⟨?_, ?_, ?_, ?_⟩
  · intro s
    unfold sanitizeProductName removeUnderscores
    rw [toList_mk, toList_mk, sanitizeList_twice]
  · intro s hu
    unfold sanitizeProductName at hu ⊢
    rw [toList_mk] at hu
    rw [toList_mk, sanitizeList_twice]
    congr 1
    apply List.filter_eq_self.2
    intro a ha
    simp only [decide_eq_true_eq]
    intro he; exact hu (he ▸ ha)
  · intro s t h
    unfold sanitizeProductName
    congr 1
    calc sanitizeList s.toList
        = sanitizeList (s.toList.map lowerChar) := (sanitizeList_map_lower _).symm
      _ = sanitizeList (t.toList.map lowerChar) := by rw [h]
      _ = sanitizeList t.toList := sanitizeList_map_lower _
  · intro s t h
    unfold sanitizeProductName
    congr 1
    unfold sanitizeList
    rw [filter_keep_eq_of_forall₂ h]

/-- Witness for the amended C5 statement at concrete inputs. -/
theorem sanitize_amended_witness :
    sanitizeProductName (sanitizeProductName "redapple") = sanitizeProductName "redapple" ∧
    sanitizeProductName "RED apple" = sanitizeProductName "red APPLE" ∧
    sanitizeProductName "a!b" = sanitizeProductName "a?b" :=
  ⟨sanitize_amended.2.1 "redapple" (by decide),
   sanitize_amended.2.2.1 "RED apple" "red APPLE" (by decide),
   sanitize_amended.2.2.2 "a!b" "a?b"
     (.cons (by decide) (.cons (by decide) (.cons (by decide) .nil)))⟩

/-! ## Claim C8: language codes -/

/-- Claim C6: for every input image of positive size, `crop_to_ratio`
yields exactly 1536×864 for `"16x9"` and exactly 864×1536 for
`"9x16"` (it is a function, hence deterministic), because the input is
first resized to the fixed 1536×1536 square and then a fixed centered
rectangle is cropped — the crop boxes measure 336 pixels from each
side, which is exactly `(1536 - 864) / 2`. -/
theorem crop_to_ratio_dims (image : ImageGeom)
    (hw : 0 < image.width) (hh : 0 < image.height) :
    cropToAspect image "16x9" = .ok ⟨1536, 864⟩ ∧
    cropToAspect image "9x16" = .ok ⟨864, 1536⟩ ∧
    cropBox16x9 = (0, (1536 - 864) / 2, 1536, (1536 - 864) / 2 + 864) ∧
    cropBox9x16 = ((1536 - 864) / 2, 0, (1536 - 864) / 2 + 864, 1536) :=
  ⟨rfl, rfl, by decide, by decide⟩

/-- Witness for C6 at a concrete 100×50 input. -/
theorem crop_to_ratio_dims_witness :
    cropToAspect ⟨100, 50⟩ "16x9" = .ok ⟨1536, 864⟩ ∧
    cropToAspect ⟨100, 50⟩ "9x16" = .ok ⟨864, 1536⟩ :=
  ⟨(crop_to_ratio_dims ⟨100, 50⟩ (by decide) (by decide)).1,
   (crop_to_ratio_dims ⟨100, 50⟩ (by decide) (by decide)).2.1⟩


/-! ## Lemmas: campaign loader -/

/-- A directory whose marker parses to a mapping with `status: done` is
skipped, whatever its brief file holds. -/
theorem loadEntry_skip (dir : String) {e : CampaignEntry}
    (hd : e.isDir = true) (hm : e.meta = .metaMap (some "done")) :
    loadEntry dir e = .ok none := by
  unfold loadEntry
  rw [hd, hm]
  rfl

/-- A directory whose brief fails to parse contributes nothing and
raises nothing, provided its marker does not itself raise. -/
theorem loadEntry_malformed_brief (dir : String) {e : CampaignEntry}
    (hd : e.isDir = true) (hb : e.brief = .parseFailed)
    (hm : e.meta ≠ .metaNonMap) :
    loadEntry dir e = .ok none := by
  unfold loadEntry
  rw [hd, hb]
  cases hme : e.meta with
  | absent => rfl
  | parseFailed => rfl
  | parsedNone => rfl
  | metaMap st =>
    by_cases hst : st = some "done"
    · rw [hst]; rfl
    · simp [loadEntry, hst]
  | metaNonMap => exact absurd hme hm

/-- An entry that contributes nothing can be deleted from the listing
without changing the loader's outcome. -/
theorem loadCampaignBriefs_skip_middle (dir : String)
    (pre post : List CampaignEntry) (c : CampaignEntry)
    (h : loadEntry dir c = .ok none) :
    loadCampaignBriefs dir (pre ++ c :: post) =
      loadCampaignBriefs dir (pre ++ post) := by
  induction pre with
  | nil =>
    simp only [List.nil_append]
    cases hl : loadCampaignBriefs dir post <;>
      simp [loadCampaignBriefs, h, hl]
  | cons a as ih =>
    simp only [List.cons_append]
    cases hE : loadEntry dir a with
    | error err => simp [loadCampaignBriefs, hE]
    | ok contributed => simp [loadCampaignBriefs, hE, ih]

/-- A contributed brief carries the name of its directory entry. -/
theorem loadEntry_some_name {dir : String} {e : CampaignEntry} {b : LoaderBrief}
    (h : loadEntry dir e = .ok (some b)) : b.campaignName = e.name := by
  rcases e with ⟨n, d, m, br⟩
  rcases b with ⟨bp, bn, bpath⟩
  cases d
  · simp [loadEntry] at h
  · cases m with
    | absent => cases br <;> simp_all [loadEntry]
    | parseFailed => cases br <;> simp_all [loadEntry]
    | parsedNone => cases br <;> simp_all [loadEntry]
    | metaMap st =>
      by_cases hst : st = some "done"
      · subst hst; simp [loadEntry] at h
      · cases br <;> simp_all [loadEntry]
    | metaNonMap => simp [loadEntry] at h

/-- Every brief of a successfully returned list is named after one of
the scanned entries. -/
theorem loadCampaignBriefs_names {dir : String} :
    ∀ (entries : List CampaignEntry) (l : List LoaderBrief) (b : LoaderBrief),
    loadCampaignBriefs dir entries = .ok l → b ∈ l →
    b.campaignName ∈ entries.map CampaignEntry.name := by
  intro entries
  induction entries with
  | nil =>
    intro l b h hb
    simp [loadCampaignBriefs] at h
    subst h
    simp at hb
  | cons e rest ih =>
    intro l b h hb
    unfold loadCampaignBriefs at h
    cases hE : loadEntry dir e with
    | error err => rw [hE] at h; simp at h
    | ok contributed =>
      rw [hE] at h
      cases hr : loadCampaignBriefs dir rest with
      | error err => rw [hr] at h; simp at h
      | ok bs =>
        rw [hr] at h
        cases contributed with
        | none =>
          simp at h
          subst h
          exact List.mem_cons_of_mem _ (ih bs b hr hb)
        | some b0 =>
          simp at h
          subst h
          rcases List.mem_cons.1 hb with h_ | h2
          · rw [h_, loadEntry_some_name hE]
            exact List.mem_cons_self _ _
          · exact List.mem_cons_of_mem _ (ih bs b hr h2)

/-! ## Claim C1: completed campaigns are excluded -/

/-- Claim C1: a campaign folder whose `meta.yaml` parses and reports
`status: done` is excluded by `load_campaign_briefs` — deleting it from
the directory listing does not change the outcome at all (whatever its
brief file holds), and when a list is returned no brief of that
campaign's name is in it (directory entry names being distinct). -/
theorem loader_skips_done (dir : String) (pre post : List CampaignEntry)
    (c : CampaignEntry) (hd : c.isDir = true)
    (hm : c.meta = .metaMap (some "done")) :
    loadCampaignBriefs dir (pre ++ c :: post) =
      loadCampaignBriefs dir (pre ++ post) ∧
    (c.name ∉ (pre ++ post).map CampaignEntry.name →
      ∀ l, loadCampaignBriefs dir (pre ++ c :: post) = .ok l →
        ∀ b ∈ l, b.campaignName ≠ c.name) := by
  have hskip := loadEntry_skip dir hd hm
  have heq := loadCampaignBriefs_skip_middle dir pre post c hskip
  refine ⟨heq, ?_⟩
  intro hname l hl b hb he
  rw [heq] at hl
  exact hname (he ▸ loadCampaignBriefs_names _ l b hl hb)

/-- Witness for C1: the `done` campaign (with an invalid brief file!)
is skipped; the sibling is loaded. -/
theorem loader_skips_done_witness :
    loadCampaignBriefs "campaigns"
      [⟨"c_done", true, .metaMap (some "done"), .briefNonMap⟩,
       ⟨"c2", true, .absent, .briefMap 7⟩] =
      loadCampaignBriefs "campaigns" [⟨"c2", true, .absent, .briefMap 7⟩] ∧
    loadCampaignBriefs "campaigns" [⟨"c2", true, .absent, .briefMap 7⟩] =
      .ok [⟨7, "c2", "campaigns/c2"⟩] :=
  ⟨(loader_skips_done "campaigns" []
      [⟨"c2", true, .absent, .briefMap 7⟩]
      ⟨"c_done", true, .metaMap (some "done"), .briefNonMap⟩ rfl rfl).1,
   rfl⟩

/-! ## Claim C4: malformed briefs -/

/-- Claim C4 (counterexample): the claim fails as universally stated —
a campaign folder whose brief file is malformed but whose `meta.yaml`
parses to a non-mapping (e.g. a YAML list) makes `meta_data.get` raise
`AttributeError`, which `except yaml.YAMLError` does not catch, so
`load_campaign_briefs` raises and no list is returned. -/
theorem loader_malformed_brief_cex :
    loadCampaignBriefs "campaigns"
      [⟨"broken", true, .metaNonMap, .parseFailed⟩] =
      .error .attributeError := rfl

/-- Claim C4 (amended): for a campaign folder whose brief file exists
but fails to parse, and whose marker (if present) does not itself parse
to a non-mapping value, the loader logs, omits the campaign, raises
nothing at that campaign, and scans the remaining siblings exactly as
if the folder were absent. -/
theorem loader_malformed_brief_amended (dir : String)
    (pre post : List CampaignEntry) (c : CampaignEntry)
    (hd : c.isDir = true) (hb : c.brief = .parseFailed)
    (hm : c.meta ≠ .metaNonMap) :
    loadEntry dir c = .ok none ∧
    loadCampaignBriefs dir (pre ++ c :: post) =
      loadCampaignBriefs dir (pre ++ post) := by
  have h := loadEntry_malformed_brief dir hd hb hm
  exact ⟨h, loadCampaignBriefs_skip_middle dir pre post c h⟩

/-- Witness for the amended C4 statement. -/
theorem loader_malformed_brief_amended_witness :
    loadEntry "campaigns" ⟨"bad", true, .absent, .parseFailed⟩ = .ok none ∧
    loadCampaignBriefs "campaigns"
      [⟨"bad", true, .absent, .parseFailed⟩, ⟨"c2", true, .absent, .briefMap 3⟩] =
      loadCampaignBriefs "campaigns" [⟨"c2", true, .absent, .briefMap 3⟩] :=
  loader_malformed_brief_amended "campaigns" []
    [⟨"c2", true, .absent, .briefMap 3⟩]
    ⟨"bad", true, .absent, .parseFailed⟩ rfl rfl (by decide)


/-! ## Lemmas: text overlay heap -/

theorem heapGet_append_lt {heap : List PImg} {x : PImg} {r : Nat}
    (hr : r < heap.length) : heapGet (heap ++ [x]) r = heapGet heap r := by
  unfold heapGet
  rw [List.getD_eq_getElem?_getD, List.getD_eq_getElem?_getD,
      List.getElem?_append_left hr]

theorem heapGet_append_self (heap : List PImg) (x : PImg) :
    heapGet (heap ++ [x]) heap.length = x := by
  unfold heapGet
  rw [List.getD_eq_getElem?_getD, List.getElem?_concat_length]
  rfl

theorem heapGet_set_ne {heap : List PImg} {i j : Nat} {v : PImg} (h : i ≠ j) :
    heapGet (heap.set i v) j = heapGet heap j := by
  unfold heapGet
  rw [List.getD_eq_getElem?_getD, List.getD_eq_getElem?_getD,
      List.getElem?_set_ne h]

/-- Blank or whitespace-only text: the input reference and heap are
returned untouched (source line 65-66). -/
theorem addTextOverlay_blank (o : TextOracle) (heap : List PImg) (r : Nat)
    (text : String) (h : text = "" ∨ pyStrip text = "") :
    addTextOverlay o heap r text = (r, heap) := by
  unfold addTextOverlay
  rw [if_pos h]

/-- No fitting layout: the returned image is the untouched copy of the
input (source lines 92-94). -/
theorem addTextOverlay_noFit (o : TextOracle) (heap : List PImg) (r : Nat)
    (text : String) (hnb : ¬(text = "" ∨ pyStrip text = ""))
    (hfit : overlayLayout o (heapGet heap r) text = none) :
    addTextOverlay o heap r text = (heap.length, heap ++ [heapGet heap r]) := by
  unfold addTextOverlay
  rw [if_neg hnb]
  dsimp only [heapAlloc]
  rw [hfit]

/-- Shape of the heap after an applied overlay: the original heap is
extended by the copy and the overlay, mutated only at the overlay's
slot, possibly extended by the converted copy, and extended by the
composite result, whose reference is the last slot. -/
theorem addTextOverlay_someShape (o : TextOracle) (heap : List PImg) (r : Nat)
    (text : String) (hnb : ¬(text = "" ∨ pyStrip text = ""))
    (sz : Nat) (w h' : Int)
    (hfit : overlayLayout o (heapGet heap r) text = some (sz, w, h')) :
    ((addTextOverlay o heap r text).1 + 1 =
      ((addTextOverlay o heap r text).2).length) ∧
    ((∃ a b c d res : PImg,
        (addTextOverlay o heap r text).2 =
          ((((heap ++ [a]) ++ [b]).set (heap ++ [a]).length c).set
              (heap ++ [a]).length d) ++ [res]) ∨
     (∃ a b c d cv res : PImg,
        (addTextOverlay o heap r text).2 =
          (((((heap ++ [a]) ++ [b]).set (heap ++ [a]).length c).set
              (heap ++ [a]).length d) ++ [cv]) ++ [res])) := by
  unfold addTextOverlay
  rw [if_neg hnb]
  dsimp only [heapAlloc]
  rw [hfit]
  dsimp only
  split
  · constructor
    · simp [List.length_append, List.length_set]
    · exact Or.inr ⟨_, _, _, _, _, _, rfl⟩
  · constructor
    · simp [List.length_append, List.length_set]
    · exact Or.inl ⟨_, _, _, _, _, rfl⟩

/-- The input image object is never mutated: its heap slot holds the
same value on every path. -/
theorem addTextOverlay_frame (o : TextOracle) (heap : List PImg) (r : Nat)
    (text : String) (hr : r < heap.length) :
    heapGet (addTextOverlay o heap r text).2 r = heapGet heap r := by
  by_cases hb : text = "" ∨ pyStrip text = ""
  · rw [addTextOverlay_blank o heap r text hb]
  · cases hfit : overlayLayout o (heapGet heap r) text with
    | none =>
      rw [addTextOverlay_noFit o heap r text hb hfit]
      exact heapGet_append_lt hr
    | some trip =>
      obtain ⟨sz, w, h'⟩ := trip
      rcases (addTextOverlay_someShape o heap r text hb sz w h' hfit).2 with
        ⟨a, b, c, d, res, hshape⟩ | ⟨a, b, c, d, cv, res, hshape⟩
      · rw [hshape]
        have hne : (heap ++ [a]).length ≠ r := by simp; omega
        rw [heapGet_append_lt (by simp [List.length_set]; omega),
            heapGet_set_ne hne, heapGet_set_ne hne,
            heapGet_append_lt (by simp; omega), heapGet_append_lt hr]
      · rw [hshape]
        have hne : (heap ++ [a]).length ≠ r := by simp; omega
        rw [heapGet_append_lt (by simp [List.length_set]; omega),
            heapGet_append_lt (by simp [List.length_set]; omega),
            heapGet_set_ne hne, heapGet_set_ne hne,
            heapGet_append_lt (by simp; omega), heapGet_append_lt hr]

/-- For non-blank text the returned reference is a freshly allocated
object (it lies beyond the original heap). -/
theorem addTextOverlay_fresh (o : TextOracle) (heap : List PImg) (r : Nat)
    (text : String) (hnb : ¬(text = "" ∨ pyStrip text = "")) :
    heap.length ≤ (addTextOverlay o heap r text).1 := by
  cases hfit : overlayLayout o (heapGet heap r) text with
  | none => rw [addTextOverlay_noFit o heap r text hnb hfit]
  | some trip =>
    obtain ⟨sz, w, h'⟩ := trip
    have hs := addTextOverlay_someShape o heap r text hnb sz w h' hfit
    rcases hs.2 with ⟨a, b, c, d, res, hshape⟩ | ⟨a, b, c, d, cv, res, hshape⟩ <;>
    · have h1 := hs.1
      rw [hshape] at h1
      simp [List.length_append, List.length_set] at h1
      omega

/-! ## Claim C7: overlay degrades to the original image -/

/-- Claim C7: `add_text_overlay` is total (the embedding returns a
value on every path — the source raises on none), and it returns an
image pixel-identical to the input (same pixels, mode and size) both
(1) when the text is empty or whitespace-only — then even the very
input reference with the heap untouched — and (2) when no candidate
font size from the configured start down to the floor makes the
measured bounding box fit the available width and height (image size
minus the margins) — then an untouched copy of the input. -/
theorem add_text_overlay_unchanged (o : TextOracle) (heap : List PImg) (r : Nat)
    (text : String) :
    (text = "" ∨ pyStrip text = "" → addTextOverlay o heap r text = (r, heap)) ∧
    ((∀ sz ∈ candidateSizes FONT_SIZE,
        ¬((o.getbbox sz text).x1 - (o.getbbox sz text).x0 ≤
            availOf (heapGet heap r).width ∧
          (o.getbbox sz text).y1 - (o.getbbox sz text).y0 ≤
            availOf (heapGet heap r).height)) →
      heapGet (addTextOverlay o heap r text).2 (addTextOverlay o heap r text).1 =
        heapGet heap r) := by
  constructor
  · exact addTextOverlay_blank o heap r text
  · intro hnofit
    have hnone : overlayLayout o (heapGet heap r) text = none := by
      unfold overlayLayout findOptimalTextLayout
      rw [List.findSome?_eq_none_iff]
      intro sz hsz
      dsimp only
      rw [if_neg (hnofit sz hsz)]
    by_cases hb : text = "" ∨ pyStrip text = ""
    · rw [addTextOverlay_blank o heap r text hb]
    · rw [addTextOverlay_noFit o heap r text hb hnone]
      exact heapGet_append_self heap _

/-- Witness for C7: a whitespace-only text returns the input as-is; a
font whose bounding box is always 10000 wide never fits a 100×100
image, and the result is pixel-identical to the input. -/
theorem add_text_overlay_unchanged_witness :
    addTextOverlay ⟨fun _ _ => ⟨0, 0, 10000, 10000⟩, fun _ _ => 0,
        fun _ _ _ _ _ => 0, fun _ _ _ _ _ _ => 0, fun _ => 0, fun _ _ => 0⟩
      [⟨100, 100, "RGB", 42⟩] 0 " " = (0, [⟨100, 100, "RGB", 42⟩]) ∧
    heapGet (addTextOverlay ⟨fun _ _ => ⟨0, 0, 10000, 10000⟩, fun _ _ => 0,
        fun _ _ _ _ _ => 0, fun _ _ _ _ _ _ => 0, fun _ => 0, fun _ _ => 0⟩
        [⟨100, 100, "RGB", 42⟩] 0 "hi").2
      (addTextOverlay ⟨fun _ _ => ⟨0, 0, 10000, 10000⟩, fun _ _ => 0,
        fun _ _ _ _ _ => 0, fun _ _ _ _ _ _ => 0, fun _ => 0, fun _ _ => 0⟩
        [⟨100, 100, "RGB", 42⟩] 0 "hi").1 = ⟨100, 100, "RGB", 42⟩ :=
  ⟨(add_text_overlay_unchanged _ _ _ _).1 (Or.inr (by decide)),
   (add_text_overlay_unchanged _ _ _ _).2 (by decide)⟩

/-! ## Claim C10: overlay never mutates its input -/

/-- Claim C10: `add_text_overlay` never mutates the image object passed
in — after the call the input's heap slot holds the same value (pixels,
mode and size) as before, on every path; and whenever the text is
non-blank (in particular whenever an overlay is applied) the returned
image is a newly created object, distinct from the input. -/
theorem add_text_overlay_no_mutation (o : TextOracle) (heap : List PImg) (r : Nat)
    (text : String) (hr : r < heap.length) :
    heapGet (addTextOverlay o heap r text).2 r = heapGet heap r ∧
    (¬(text = "" ∨ pyStrip text = "") →
      heap.length ≤ (addTextOverlay o heap r text).1 ∧
      (addTextOverlay o heap r text).1 ≠ r) := by
  refine ⟨addTextOverlay_frame o heap r text hr, fun hnb => ?_⟩
  have hle := addTextOverlay_fresh o heap r text hnb
  exact ⟨hle, fun he => absurd (he ▸ hle) (Nat.not_le.2 hr)⟩

/-- Witness for C10 with a font that fits (the overlay is applied): the
input slot is unchanged and the result is a fresh object. -/
theorem add_text_overlay_no_mutation_witness :
    heapGet (addTextOverlay ⟨fun _ _ => ⟨0, 0, 1, 1⟩, fun _ _ => 7,
        fun _ _ _ _ _ => 8, fun _ _ _ _ _ _ => 9, fun _ => 10, fun _ _ => 11⟩
        [⟨100, 100, "RGB", 42⟩] 0 "hi").2 0 = ⟨100, 100, "RGB", 42⟩ ∧
    (addTextOverlay ⟨fun _ _ => ⟨0, 0, 1, 1⟩, fun _ _ => 7,
        fun _ _ _ _ _ => 8, fun _ _ _ _ _ _ => 9, fun _ => 10, fun _ _ => 11⟩
        [⟨100, 100, "RGB", 42⟩] 0 "hi").1 ≠ 0 :=
  ⟨(add_text_overlay_no_mutation _ _ _ _ (by decide)).1,
   ((add_text_overlay_no_mutation _ _ _ _ (by decide)).2 (by decide)).2⟩


/-! ## Lemmas: filesystem primitives -/

theorem fsRead_write_self (fs : FS) (p : FPath) (v : FileData) :
    fsRead (fsWrite fs p v) p = some v := by
  unfold fsWrite fsRead
  rw [if_pos rfl]

theorem fsRead_write_ne (fs : FS) {p q : FPath} (v : FileData) (h : p ≠ q) :
    fsRead (fsWrite fs p v) q = fsRead fs q := by
  show (if p = q then some v else fsRead fs q) = fsRead fs q
  rw [if_neg h]

theorem fsRead_erase_self : ∀ (fs : FS) (p : FPath),
    fsRead (fsErase fs p) p = none := by
  intro fs p
  induction fs with
  | nil => rfl
  | cons e rest ih =>
    obtain ⟨a, v⟩ := e
    by_cases h : a = p
    · simp [fsErase, fsRead, h]; exact ih
    · simp [fsErase, fsRead, h]; exact ih

theorem fsRead_erase_ne : ∀ (fs : FS) {p q : FPath}, p ≠ q →
    fsRead (fsErase fs p) q = fsRead fs q := by
  intro fs
  induction fs with
  | nil => intro p q _; rfl
  | cons e rest ih =>
    intro p q hpq
    obtain ⟨a, v⟩ := e
    by_cases h : a = p
    · subst h
      have h2 := ih hpq
      simp [fsErase, fsRead, hpq, h2]
    · by_cases haq : a = q
      · simp [fsErase, fsRead, h, haq, Ne.symm hpq]
      · simp [fsErase, fsRead, h, haq, ih hpq]

theorem preserves_pure {P : FPath → Prop} {α : Type} (a : α) :
    PreservesOutside P (pure a : ProcM α) :=
  fun _ _ _ => rfl

theorem preserves_throw {P : FPath → Prop} {α : Type} (e : PyErr) :
    PreservesOutside P (throw e : ProcM α) :=
  fun _ _ _ => rfl

theorem preserves_readFile {P : FPath → Prop} (p : FPath) :
    PreservesOutside P (readFile p) := by
  intro fs q _
  unfold readFile
  cases fsRead fs p <;> rfl

theorem preserves_fileExists {P : FPath → Prop} (p : FPath) :
    PreservesOutside P (fileExists p) :=
  fun _ _ _ => rfl

theorem preserves_writeFile {P : FPath → Prop} {p : FPath} (v : FileData)
    (hp : P p) : PreservesOutside P (writeFile p v) := by
  intro fs q hq
  show fsRead (fsWrite fs p v) q = fsRead fs q
  exact fsRead_write_ne fs v (fun he => hq (he ▸ hp))

theorem preserves_removeFile {P : FPath → Prop} {p : FPath} (hp : P p) :
    PreservesOutside P (removeFile p) := by
  intro fs q hq
  unfold removeFile
  cases fsRead fs p with
  | none => rfl
  | some v =>
    show fsRead (fsErase fs p) q = fsRead fs q
    exact fsRead_erase_ne fs (fun he => hq (he ▸ hp))

/-- Sequencing: a bind preserves outside `P` when its head does and its
continuation does for every value the head can return (`Q` carries what
is known about that value). -/
theorem preserves_bind {P : FPath → Prop} {α β : Type} {m : ProcM α}
    {f : α → ProcM β} {Q : α → Prop}
    (hm : PreservesOutside P m)
    (hmQ : ∀ fs a s, m fs = .ok a s → Q a)
    (hf : ∀ a, Q a → PreservesOutside P (f a)) :
    PreservesOutside P (m >>= f) := by
  intro fs q hq
  show fsRead (stateOf (EStateM.bind m f fs)) q = fsRead fs q
  unfold EStateM.bind
  cases hm' : m fs with
  | ok a s =>
    have h1 : fsRead s q = fsRead fs q := by
      have := hm fs q hq
      rw [hm'] at this
      exact this
    rw [hf a (hmQ fs a s hm') s q hq, h1]
  | error e s =>
    have := hm fs q hq
    rw [hm'] at this
    exact this

/-- Unconstrained sequencing. -/
theorem preserves_bind' {P : FPath → Prop} {α β : Type} {m : ProcM α}
    {f : α → ProcM β} (hm : PreservesOutside P m)
    (hf : ∀ a, PreservesOutside P (f a)) :
    PreservesOutside P (m >>= f) :=
  preserves_bind hm (fun _ _ _ _ => trivial) (fun a _ => hf a)

/-! ## Lemmas: path geometry -/

theorem underDir_append : ∀ (p s : FPath), underDir p (p ++ s) = true := by
  intro p s
  induction p with
  | nil => simp [underDir]
  | cons a as ih => simp [underDir, ih]

/-- Two distinct immediate children of the same directory do not
contain one another. -/
theorem underDir_sibling_false : ∀ (p : FPath) {x y : String} (t : FPath),
    x ≠ y → underDir (p ++ [x]) (p ++ y :: t) = false := by
  intro p
  induction p with
  | nil => intro x y t hxy; simp [underDir, hxy]
  | cons a as ih =>
    intro x y t hxy
    simp only [List.cons_append, underDir]
    simp [ih t hxy]

theorem underDir_extend : ∀ (p s q : FPath),
    underDir (p ++ s) q = true → underDir p q = true := by
  intro p
  induction p with
  | nil => intro s q _; simp [underDir]
  | cons a as ih =>
    intro s q h
    cases q with
    | nil => exact absurd h (by simp [underDir])
    | cons b bs =>
      simp only [List.cons_append, underDir, Bool.and_eq_true] at h ⊢
      exact ⟨h.1, ih s bs h.2⟩

theorem append_singleton_eq_singleton {l : FPath} {a b : String} :
    l ++ [a] = [b] → l = [] ∧ a = b := by
  cases l with
  | nil => intro h; simp at h; exact ⟨rfl, h⟩
  | cons x xs => intro h; simp at h

/-! ## Lemmas: what each workflow step may write -/

theorem preserves_openImage {P : FPath → Prop} (p : FPath) :
    PreservesOutside P (openImage p) := by
  unfold openImage
  apply preserves_bind' (preserves_readFile p)
  intro v
  cases v with
  | metaFile s => exact preserves_throw _
  | imgFile px => exact preserves_pure _

theorem preserves_createAsset {P : FPath → Prop} (o : RemoteOracle)
    (prompt : String) {assetPath : FPath} (hp : P assetPath) :
    PreservesOutside P (createAssetFromPrompt o prompt assetPath) := by
  unfold createAssetFromPrompt
  cases o.generateAsset prompt with
  | error code => exact preserves_throw _
  | ok px =>
    exact preserves_bind' (preserves_writeFile _ hp) (fun _ => preserves_pure _)

/-- `create_asset_from_prompt` returns the very path it was given. -/
theorem createAsset_ret (o : RemoteOracle) (prompt : String) (p : FPath)
    (fs : FS) (a : FPath) (s : FS)
    (h : createAssetFromPrompt o prompt p fs = .ok a s) : a = p := by
  unfold createAssetFromPrompt at h
  cases hc : o.generateAsset prompt with
  | error code =>
    rw [hc] at h
    simp [throw, throwThe, MonadExceptOf.throw, EStateM.throw] at h
  | ok px =>
    rw [hc] at h
    injection h with h1 _
    exact h1.symm

theorem preserves_genWithAsset {P : FPath → Prop} (o : RemoteOracle)
    {assetPath : FPath} (prompt : String) {outPath : FPath}
    (hmask : P (maskSibling assetPath)) (hout : P outPath) :
    PreservesOutside P (generateImageWithAsset o assetPath prompt outPath) := by
  unfold generateImageWithAsset
  apply preserves_bind' (preserves_openImage _)
  intro px
  apply preserves_bind' (preserves_writeFile _ hmask)
  intro _
  cases o.editWithAsset px prompt with
  | error code => exact preserves_throw _
  | ok bpx =>
    exact preserves_bind' (preserves_writeFile _ hout) (fun _ => preserves_pure _)

theorem preserves_prepareCanvas {P : FPath → Prop} (o : RemoteOracle) (p : FPath) :
    PreservesOutside P (prepareCanvas o p) := by
  unfold prepareCanvas
  exact preserves_bind' (preserves_openImage _) (fun px => preserves_pure _)

theorem preserves_outpaint {P : FPath → Prop} (o : RemoteOracle) (c : Nat)
    (prompt : String) (htc : P tempCanvasPath) (htm : P tempMaskPath) :
    PreservesOutside P (outpaintWithDalle o c prompt) := by
  unfold outpaintWithDalle
  apply preserves_bind' (preserves_writeFile _ htc); intro _
  apply preserves_bind' (preserves_writeFile _ htm); intro _
  apply preserves_bind' (preserves_readFile _); intro _
  apply preserves_bind' (preserves_readFile _); intro _
  cases o.outpaintCall c (o.outMaskPx c) (prompt.take 999) with
  | error code => exact preserves_throw _
  | ok px =>
    apply preserves_bind' (preserves_removeFile htc); intro _
    exact preserves_bind' (preserves_removeFile htm) (fun _ => preserves_pure _)

theorem preserves_cropSave {P : FPath → Prop} (o : RemoteOracle) (srcPx : Nat)
    {outPath : FPath} (aspect : String) (hp : P outPath) :
    PreservesOutside P (cropSave o srcPx outPath aspect) := by
  unfold cropSave
  split
  · exact preserves_writeFile _ hp
  · exact preserves_throw _

theorem preserves_processOneLanguage {P : FPath → Prop} (o : RemoteOracle)
    (message : String) (basePath p16x9 p9x16 : FPath)
    (productName assetName : String) {resultsPath : FPath} (language : String)
    (hrp : ∀ suf : FPath, P (resultsPath ++ suf)) :
    PreservesOutside P (processOneLanguage o message basePath p16x9 p9x16
      productName assetName resultsPath language) := by
  have hp : ∀ (mid tail : List String), P ((resultsPath ++ mid) ++ tail) := by
    intro mid tail
    rw [List.append_assoc]
    exact hrp _
  unfold processOneLanguage
  apply preserves_bind' (preserves_openImage _); intro px1
  apply preserves_bind' (preserves_writeFile _ (hp _ _)); intro _
  apply preserves_bind' (preserves_openImage _); intro px2
  apply preserves_bind' (preserves_writeFile _ (hp _ _)); intro _
  apply preserves_bind' (preserves_openImage _); intro px3
  apply preserves_bind' (preserves_writeFile _ (hp _ _)); intro _
  split
  · apply preserves_bind' (preserves_writeFile _ (hp _ _)); intro _
    apply preserves_bind' (preserves_writeFile _ (hp _ _)); intro _
    exact preserves_writeFile _ (hp _ _)
  · exact preserves_pure _

theorem preserves_processLanguageList {P : FPath → Prop} (o : RemoteOracle)
    (message : String) (basePath p16x9 p9x16 : FPath)
    (productName assetName : String) {resultsPath : FPath}
    (hrp : ∀ suf : FPath, P (resultsPath ++ suf)) :
    ∀ languages : List String,
    PreservesOutside P (processLanguageList o message basePath p16x9 p9x16
      productName assetName resultsPath languages) := by
  intro languages
  induction languages with
  | nil => exact preserves_pure _
  | cons l rest ih =>
    unfold processLanguageList
    exact preserves_bind'
      (preserves_processOneLanguage o message basePath p16x9 p9x16
        productName assetName l hrp)
      (fun _ => ih)

theorem maskSibling_concat (p : FPath) (x : String) :
    maskSibling (p ++ [x]) = p ++ [fileStem x ++ "_mask.png"] := by
  unfold maskSibling
  rw [List.dropLast_concat, List.getLastD_concat]

/-- Running a bind: the continuation sees the head's result state. -/
theorem bind_run {α β : Type} (m : ProcM α) (f : α → ProcM β) (fs : FS) :
    (m >>= f) fs = match m fs with
      | .ok a s => f a s
      | .error e s => .error e s := by
  show EStateM.bind m f fs = _
  unfold EStateM.bind
  cases m fs <;> rfl

theorem preserves_resolveExistingAsset {P : FPath → Prop}
    (campaignPath : FPath) (assetFile : Option String) :
    PreservesOutside P (resolveExistingAsset campaignPath assetFile) := by
  cases assetFile with
  | none => exact preserves_pure _
  | some af =>
    unfold resolveExistingAsset
    dsimp only
    by_cases haf : af = ""
    · rw [if_pos haf]; exact preserves_pure _
    · rw [if_neg haf]
      apply preserves_bind' (preserves_fileExists _)
      intro ex
      cases ex
      · exact preserves_pure _
      · exact preserves_pure _

/-- When an existing asset is found, its path sits in the campaign's
assets folder. -/
theorem resolveExistingAsset_shape (campaignPath : FPath)
    (assetFile : Option String) (fs : FS) (a : Option (FPath × String)) (s : FS)
    (h : resolveExistingAsset campaignPath assetFile fs = .ok a s) :
    ∀ pr, a = some pr → ∃ x, pr.1 = (campaignPath ++ [ASSETS_DIR]) ++ [x] := by
  intro pr hpr
  cases assetFile with
  | none =>
    unfold resolveExistingAsset at h
    have h2 : EStateM.Result.ok (α := Option (FPath × String)) none fs = .ok a s := h
    injection h2 with h3 _
    rw [← h3] at hpr
    exact absurd hpr (by simp)
  | some af =>
    unfold resolveExistingAsset at h
    dsimp only at h
    by_cases haf : af = ""
    · rw [if_pos haf] at h
      have h2 : EStateM.Result.ok (α := Option (FPath × String)) none fs = .ok a s := h
      injection h2 with h3 _
      rw [← h3] at hpr
      exact absurd hpr (by simp)
    · rw [if_neg haf] at h
      rw [bind_run] at h
      have hfe : fileExists (campaignPath ++ [ASSETS_DIR, af]) fs =
          .ok (fsRead fs (campaignPath ++ [ASSETS_DIR, af])).isSome fs := rfl
      rw [hfe] at h
      dsimp only at h
      by_cases hex : (fsRead fs (campaignPath ++ [ASSETS_DIR, af])).isSome = true
      · rw [if_pos hex] at h
        have h2 : EStateM.Result.ok (α := Option (FPath × String))
            (some (campaignPath ++ [ASSETS_DIR, af], fileStem af)) fs = .ok a s := h
        injection h2 with h3 _
        rw [← h3] at hpr
        injection hpr with h4
        refine ⟨af, ?_⟩
        rw [← h4]
        simp
      · rw [if_neg hex] at h
        have h2 : EStateM.Result.ok (α := Option (FPath × String)) none fs =
            .ok a s := h
        injection h2 with h3 _
        rw [← h3] at hpr
        exact absurd hpr (by simp)

theorem preserves_resolveAssetOrCreate {P : FPath → Prop} (o : RemoteOracle)
    (productName : String) {campaignPath : FPath}
    (existing : Option (FPath × String))
    (hassets : ∀ suf : FPath, P ((campaignPath ++ [ASSETS_DIR]) ++ suf)) :
    PreservesOutside P (resolveAssetOrCreate o productName campaignPath existing) := by
  cases existing with
  | some pair => exact preserves_pure _
  | none =>
    unfold resolveAssetOrCreate
    apply preserves_bind'
      (preserves_createAsset o _ (by
        have h5 := hassets [productName ++ ".png"]
        rw [List.append_assoc] at h5
        exact h5))
    intro created
    exact preserves_pure _

/-- The final asset path always sits in the campaign's assets folder. -/
theorem resolveAssetOrCreate_shape (o : RemoteOracle) (productName : String)
    (campaignPath : FPath) (existing : Option (FPath × String))
    (hQ : ∀ pr, existing = some pr →
      ∃ x, pr.1 = (campaignPath ++ [ASSETS_DIR]) ++ [x])
    (fs : FS) (pair : FPath × String) (s : FS)
    (h : resolveAssetOrCreate o productName campaignPath existing fs = .ok pair s) :
    ∃ x, pair.1 = (campaignPath ++ [ASSETS_DIR]) ++ [x] := by
  cases existing with
  | some pr =>
    unfold resolveAssetOrCreate at h
    have h2 : EStateM.Result.ok pr fs = .ok pair s := h
    injection h2 with h3 _
    rw [← h3]
    exact hQ pr rfl
  | none =>
    unfold resolveAssetOrCreate at h
    dsimp only at h
    rw [bind_run] at h
    cases hca : createAssetFromPrompt o productName
        (campaignPath ++ [ASSETS_DIR, productName ++ ".png"]) fs with
    | error e s' => rw [hca] at h; simp at h
    | ok created s' =>
      rw [hca] at h
      have hc := createAsset_ret _ _ _ _ _ _ hca
      have h2 : EStateM.Result.ok (created, fileStem (productName ++ ".png")) s' =
          .ok pair s := h
      injection h2 with h3 _
      rw [← h3]
      refine ⟨productName ++ ".png", ?_⟩
      dsimp only
      rw [hc]
      simp

/-- `_process_single_product` writes only inside the campaign's
`assets` folder, inside the `results` folder it was given, and the two
temporary outpainting files. -/
theorem preserves_processSingleProduct {P : FPath → Prop} (o : RemoteOracle)
    (payload : Nat) (message product : String) (assetFile : Option String)
    {resultsPath campaignPath : FPath} (languages : List String)
    (hassets : ∀ suf : FPath, P ((campaignPath ++ [ASSETS_DIR]) ++ suf))
    (hrp : ∀ suf : FPath, P (resultsPath ++ suf))
    (htc : P tempCanvasPath) (htm : P tempMaskPath) :
    PreservesOutside P (processSingleProduct o payload message product assetFile
      resultsPath campaignPath languages) := by
  unfold processSingleProduct
  apply preserves_bind (Q := fun existing : Option (FPath × String) =>
    ∀ pr, existing = some pr → ∃ x, pr.1 = (campaignPath ++ [ASSETS_DIR]) ++ [x])
  · exact preserves_resolveExistingAsset campaignPath assetFile
  · exact fun fs a s h => resolveExistingAsset_shape campaignPath assetFile fs a s h
  intro existing hQ
  apply preserves_bind (Q := fun pair : FPath × String =>
    ∃ x, pair.1 = (campaignPath ++ [ASSETS_DIR]) ++ [x])
  · exact preserves_resolveAssetOrCreate o _ existing hassets
  · exact fun fs pair s h =>
      resolveAssetOrCreate_shape o _ campaignPath existing hQ fs pair s h
  intro pair hQ2
  obtain ⟨x, hx⟩ := hQ2
  apply preserves_bind' (preserves_genWithAsset o _ (by
      rw [hx, maskSibling_concat]
      exact hassets _) (hrp _))
  intro _
  apply preserves_bind' (preserves_prepareCanvas o _)
  intro canvas
  apply preserves_bind' (preserves_outpaint o canvas _ htc htm)
  intro outPx
  apply preserves_bind' (preserves_openImage _)
  intro _
  apply preserves_bind' (preserves_cropSave o outPx _ (hrp _))
  intro _
  apply preserves_bind' (preserves_cropSave o outPx _ (hrp _))
  intro _
  exact preserves_processLanguageList o message _ _ _ _ _ hrp languages


theorem underDir_exists : ∀ (p q : FPath), underDir p q = true →
    ∃ s, q = p ++ s := by
  intro p
  induction p with
  | nil => intro q _; exact ⟨q, rfl⟩
  | cons a as ih =>
    intro q h
    cases q with
    | nil => exact absurd h (by simp [underDir])
    | cons b bs =>
      simp only [underDir, Bool.and_eq_true, decide_eq_true_eq] at h
      obtain ⟨s, hs⟩ := ih bs h.2
      exact ⟨s, by rw [h.1, hs]; rfl⟩

/-- The product loop writes only in the assets/results folders and the
temporary files. -/
theorem preserves_productLoop {P : FPath → Prop} (o : RemoteOracle)
    (payload : Nat) (message : String) (assets : List String)
    {resultsPath campaignPath : FPath} (languages : List String)
    (hassets : ∀ suf : FPath, P ((campaignPath ++ [ASSETS_DIR]) ++ suf))
    (hrp : ∀ suf : FPath, P (resultsPath ++ suf))
    (htc : P tempCanvasPath) (htm : P tempMaskPath) :
    ∀ (products : List String) (i : Nat),
    PreservesOutside P (productLoop o payload message assets resultsPath
      campaignPath languages i products) := by
  intro products
  induction products with
  | nil => intro i; exact preserves_pure _
  | cons p rest ih =>
    intro i
    unfold productLoop
    exact preserves_bind'
      (preserves_processSingleProduct o payload message p _ languages
        hassets hrp htc htm)
      (fun _ => ih (i + 1))

/-- Running `process_single_campaign`: the product loop runs first and
the marker write happens only on its success path. -/
theorem processSingleCampaign_run (o : RemoteOracle) (b : LoadedBrief) (fs : FS) :
    processSingleCampaign o b fs =
      match productLoop o b.payload (b.message.getD "") (b.assets.getD [])
          (b.campaignPath ++ [RESULTS_DIR]) b.campaignPath
          (b.languages.getD ["English"]) 0 (b.products.getD []) fs with
      | .ok _ s => .ok () (fsWrite s (metaPath b.campaignPath) (.metaFile "done"))
      | .error e s => .error e s := by
  show (productLoop o b.payload (b.message.getD "") (b.assets.getD [])
      (b.campaignPath ++ [RESULTS_DIR]) b.campaignPath
      (b.languages.getD ["English"]) 0 (b.products.getD []) >>= fun _ =>
      markCampaignDone b.campaignPath) fs = _
  rw [bind_run]
  cases productLoop o b.payload (b.message.getD "") (b.assets.getD [])
      (b.campaignPath ++ [RESULTS_DIR]) b.campaignPath
      (b.languages.getD ["English"]) 0 (b.products.getD []) fs <;> rfl

/-- The marker path is not touched by the product loop. -/
theorem metaPath_not_loopWrites (campaignPath : FPath) :
    ¬ (underDir (campaignPath ++ [ASSETS_DIR]) (metaPath campaignPath) = true ∨
       underDir (campaignPath ++ [RESULTS_DIR]) (metaPath campaignPath) = true ∨
       metaPath campaignPath = tempCanvasPath ∨
       metaPath campaignPath = tempMaskPath) := by
  intro hcon
  rcases hcon with h | h | h | h
  · simp only [metaPath] at h
    rw [underDir_sibling_false campaignPath [] (by decide)] at h
    exact absurd h (by simp)
  · simp only [metaPath] at h
    rw [underDir_sibling_false campaignPath [] (by decide)] at h
    exact absurd h (by simp)
  · simp only [metaPath] at h
    obtain ⟨_, h2⟩ := append_singleton_eq_singleton h
    exact absurd h2 (by decide)
  · simp only [metaPath] at h
    obtain ⟨_, h2⟩ := append_singleton_eq_singleton h
    exact absurd h2 (by decide)

/-- Success of `process_single_campaign` leaves the `done` marker. -/
theorem psc_ok_marker (o : RemoteOracle) (b : LoadedBrief) (fs fs' : FS)
    (h : processSingleCampaign o b fs = .ok () fs') :
    fsRead fs' (metaPath b.campaignPath) = some (.metaFile "done") := by
  rw [processSingleCampaign_run] at h
  cases hl : productLoop o b.payload (b.message.getD "") (b.assets.getD [])
      (b.campaignPath ++ [RESULTS_DIR]) b.campaignPath
      (b.languages.getD ["English"]) 0 (b.products.getD []) fs with
  | ok a s =>
    rw [hl] at h
    injection h with _ h2
    rw [← h2]
    exact fsRead_write_self _ _ _
  | error e s =>
    rw [hl] at h
    simp at h

/-- Failure of `process_single_campaign` leaves the marker file exactly
as it was before the run. -/
theorem psc_error_marker (o : RemoteOracle) (b : LoadedBrief) (fs fs' : FS)
    (e : PyErr) (h : processSingleCampaign o b fs = .error e fs') :
    fsRead fs' (metaPath b.campaignPath) = fsRead fs (metaPath b.campaignPath) := by
  rw [processSingleCampaign_run] at h
  cases hl : productLoop o b.payload (b.message.getD "") (b.assets.getD [])
      (b.campaignPath ++ [RESULTS_DIR]) b.campaignPath
      (b.languages.getD ["English"]) 0 (b.products.getD []) fs with
  | ok a s =>
    rw [hl] at h
    simp at h
  | error e2 s =>
    rw [hl] at h
    injection h with _ h2
    rw [← h2]
    have hpres := preserves_productLoop (P := fun q =>
        underDir (b.campaignPath ++ [ASSETS_DIR]) q = true ∨
        underDir (b.campaignPath ++ [RESULTS_DIR]) q = true ∨
        q = tempCanvasPath ∨ q = tempMaskPath)
      o b.payload (b.message.getD "") (b.assets.getD [])
      (b.languages.getD ["English"])
      (fun suf => Or.inl (underDir_append _ suf))
      (fun suf => Or.inr (Or.inl (underDir_append _ suf)))
      (Or.inr (Or.inr (Or.inl rfl)))
      (Or.inr (Or.inr (Or.inr rfl)))
      (b.products.getD []) 0 fs (metaPath b.campaignPath)
      (metaPath_not_loopWrites b.campaignPath)
    rw [hl] at hpres
    exact hpres

/-- Running `outpaint_with_dalle`: both temporary files are written, and
on success both are deleted again. -/
theorem outpaintWithDalle_run (o : RemoteOracle) (canvas : Nat) (prompt : String)
    (fs : FS) :
    outpaintWithDalle o canvas prompt fs =
      match o.outpaintCall canvas (o.outMaskPx canvas) (prompt.take 999) with
      | .error code => .error (.apiFailure code)
          (fsWrite (fsWrite fs tempCanvasPath (.imgFile canvas)) tempMaskPath
            (.imgFile (o.outMaskPx canvas)))
      | .ok px => .ok px
          (fsErase (fsErase
            (fsWrite (fsWrite fs tempCanvasPath (.imgFile canvas)) tempMaskPath
              (.imgFile (o.outMaskPx canvas))) tempCanvasPath) tempMaskPath) := by
  have step1 : outpaintWithDalle o canvas prompt fs =
      (match o.outpaintCall canvas (o.outMaskPx canvas) (prompt.take 999) with
       | .error code => (throw (PyErr.apiFailure code) : ProcM Nat)
       | .ok px => do
           removeFile tempCanvasPath
           removeFile tempMaskPath
           pure px)
      (fsWrite (fsWrite fs tempCanvasPath (.imgFile canvas)) tempMaskPath
        (.imgFile (o.outMaskPx canvas))) := rfl
  rw [step1]
  cases o.outpaintCall canvas (o.outMaskPx canvas) (prompt.take 999) <;> rfl

/-! ## Claim C9: temporary outpainting files -/

/-- Claim C9: `outpaint_with_dalle` removes the two temporary files
(canvas and mask) after the remote edit call when that call returns;
but when the call raises, both files remain on disk and the operation
never removes them (the exception propagates with the files present in
the final state). -/
theorem outpaint_temp_files (o : RemoteOracle) (canvas : Nat) (prompt : String)
    (fs : FS) :
    (∀ px fs', outpaintWithDalle o canvas prompt fs = .ok px fs' →
      fsRead fs' tempCanvasPath = none ∧ fsRead fs' tempMaskPath = none) ∧
    (∀ e fs', outpaintWithDalle o canvas prompt fs = .error e fs' →
      fsRead fs' tempCanvasPath = some (.imgFile canvas) ∧
      fsRead fs' tempMaskPath = some (.imgFile (o.outMaskPx canvas))) := by
  have hrun := outpaintWithDalle_run o canvas prompt fs
  constructor
  · intro px fs' h
    rw [hrun] at h
    cases hc : o.outpaintCall canvas (o.outMaskPx canvas) (prompt.take 999) with
    | error code => rw [hc] at h; simp at h
    | ok px2 =>
      rw [hc] at h
      injection h with _ h2
      rw [← h2]
      constructor
      · rw [fsRead_erase_ne _ (by decide)]
        exact fsRead_erase_self _ _
      · exact fsRead_erase_self _ _
  · intro e fs' h
    rw [hrun] at h
    cases hc : o.outpaintCall canvas (o.outMaskPx canvas) (prompt.take 999) with
    | ok px2 => rw [hc] at h; simp at h
    | error code =>
      rw [hc] at h
      injection h with _ h2
      rw [← h2]
      constructor
      · rw [fsRead_write_ne _ _ (by decide)]
        exact fsRead_write_self _ _ _
      · exact fsRead_write_self _ _ _

/-- Witness for C9: with a failing remote call both temporary files
remain; with a succeeding one both are gone. -/
theorem outpaint_temp_files_witness :
    (fsRead [(tempMaskPath, FileData.imgFile 6), (tempCanvasPath, FileData.imgFile 5)]
        tempCanvasPath = some (.imgFile 5) ∧
     fsRead [(tempMaskPath, FileData.imgFile 6), (tempCanvasPath, FileData.imgFile 5)]
        tempMaskPath = some (.imgFile 6)) ∧
    (fsRead ([] : FS) tempCanvasPath = none ∧ fsRead ([] : FS) tempMaskPath = none) :=
  ⟨(outpaint_temp_files
      ⟨fun _ _ => "", fun _ => "", fun _ _ => "", fun _ => .ok 0, fun _ _ => .ok 0,
       fun _ _ _ => .error 7, fun _ => 0, fun _ => 0, fun n => n + 1,
       fun _ _ => 0, fun _ _ => 0⟩ 5 "p" []).2 (.apiFailure 7)
      [(tempMaskPath, FileData.imgFile 6), (tempCanvasPath, FileData.imgFile 5)] rfl,
   (outpaint_temp_files
      ⟨fun _ _ => "", fun _ => "", fun _ _ => "", fun _ => .ok 0, fun _ _ => .ok 0,
       fun _ _ _ => .ok 9, fun _ => 0, fun _ => 0, fun n => n + 1,
       fun _ _ => 0, fun _ _ => 0⟩ 5 "p" []).1 9 [] rfl⟩

/-! ## Claim C3: the completion marker is written last -/

/-- Claim C3: `process_single_campaign` writes the `status: done`
marker only after the per-product worker returned without exception for
every product of the brief (marker write is the final step of the
success path, so success implies the marker is present); and when
processing any product raises, the run never writes the marker — the
campaign's marker file on disk is exactly what it was before the
run. -/
theorem marker_only_after_success (o : RemoteOracle) (b : LoadedBrief) (fs : FS) :
    (∀ fs', processSingleCampaign o b fs = .ok () fs' →
      fsRead fs' (metaPath b.campaignPath) = some (.metaFile "done")) ∧
    (∀ e fs', processSingleCampaign o b fs = .error e fs' →
      fsRead fs' (metaPath b.campaignPath) = fsRead fs (metaPath b.campaignPath)) :=
  ⟨fun fs' h => psc_ok_marker o b fs fs' h,
   fun e fs' h => psc_error_marker o b fs fs' e h⟩

/-- Witness for C3: a campaign with no products succeeds and its marker
reads `done`; a campaign whose product fails leaves the filesystem
without any marker. -/
theorem marker_only_after_success_witness :
    fsRead [(["campaigns", "c1", "meta.yaml"], FileData.metaFile "done")]
      (metaPath ["campaigns", "c1"]) = some (.metaFile "done") ∧
    fsRead ([] : FS) (metaPath ["campaigns", "c2"]) = fsRead ([] : FS) (metaPath ["campaigns", "c2"]) :=
  ⟨(marker_only_after_success
      ⟨fun _ _ => "", fun _ => "", fun _ _ => "", fun _ => .error 3, fun _ _ => .ok 0,
       fun _ _ _ => .ok 0, fun _ => 0, fun _ => 0, fun _ => 0,
       fun _ _ => 0, fun _ _ => 0⟩
      ⟨0, "c1", ["campaigns", "c1"], none, none, none, none⟩ []).1
      [(["campaigns", "c1", "meta.yaml"], FileData.metaFile "done")] rfl,
   (marker_only_after_success
      ⟨fun _ _ => "", fun _ => "", fun _ _ => "", fun _ => .error 3, fun _ _ => .ok 0,
       fun _ _ _ => .ok 0, fun _ => 0, fun _ => 0, fun _ => 0,
       fun _ _ => 0, fun _ _ => 0⟩
      ⟨0, "c2", ["campaigns", "c2"], some ["widget"], none, none, none⟩ []).2
      (.apiFailure 3) [] rfl⟩

/-! ## Lemmas: the guarded campaign loop -/

theorem guardCampaign_run (o : RemoteOracle) (b : LoadedBrief) (fs : FS) :
    guardCampaign o b fs = .ok () (stateOf (processSingleCampaign o b fs)) := by
  unfold guardCampaign
  cases processSingleCampaign o b fs <;> rfl

theorem campaignLoop_cons (o : RemoteOracle) (b : LoadedBrief)
    (rest : List LoadedBrief) (fs : FS) :
    campaignLoop o (b :: rest) fs =
      campaignLoop o rest (stateOf (processSingleCampaign o b fs)) := by
  show (guardCampaign o b >>= fun _ => campaignLoop o rest) fs = _
  rw [bind_run, guardCampaign_run]

/-- A campaign's whole run (products plus marker) writes only inside
its own folder and the temporary files. -/
theorem preserves_processSingleCampaign {P : FPath → Prop} (o : RemoteOracle)
    (b : LoadedBrief) (hcp : ∀ suf : FPath, P (b.campaignPath ++ suf))
    (htc : P tempCanvasPath) (htm : P tempMaskPath) :
    PreservesOutside P (processSingleCampaign o b) := by
  unfold processSingleCampaign
  apply preserves_bind'
    (preserves_productLoop o b.payload (b.message.getD "") (b.assets.getD [])
      (b.languages.getD ["English"])
      (fun suf => by rw [List.append_assoc]; exact hcp _)
      (fun suf => by rw [List.append_assoc]; exact hcp _)
      htc htm (b.products.getD []) 0)
  intro _
  intro fs q hq
  show fsRead (fsWrite fs (metaPath b.campaignPath) (.metaFile "done")) q = fsRead fs q
  exact fsRead_write_ne _ _ (fun he => hq (he ▸ hcp ["meta.yaml"]))

theorem preserves_guardCampaign {P : FPath → Prop} (o : RemoteOracle)
    (b : LoadedBrief) (h : PreservesOutside P (processSingleCampaign o b)) :
    PreservesOutside P (guardCampaign o b) := by
  intro fs q hq
  rw [guardCampaign_run]
  exact h fs q hq

theorem preserves_campaignLoop {P : FPath → Prop} (o : RemoteOracle) :
    ∀ (briefs : List LoadedBrief),
    (∀ b ∈ briefs, PreservesOutside P (processSingleCampaign o b)) →
    PreservesOutside P (campaignLoop o briefs) := by
  intro briefs
  induction briefs with
  | nil => intro _; exact preserves_pure _
  | cons b rest ih =>
    intro h fs q hq
    rw [campaignLoop_cons]
    have h1 := h b (List.mem_cons_self b rest) fs q hq
    have h2 := ih (fun b' hb' => h b' (List.mem_cons_of_mem b hb'))
      (stateOf (processSingleCampaign o b fs)) q hq
    rw [h2, h1]

/-- A path inside one campaign's folder is outside another campaign's
write set, when the two are distinct children of the campaigns root. -/
theorem campaignWrites_disjoint {n1 n2 : String} (hne : n2 ≠ n1) (s : FPath)
    (q : FPath) (hq : q = ["campaigns", n1] ++ s) :
    ¬ campaignWrites ["campaigns", n2] q := by
  intro hcon
  rcases hcon with h | h | h
  · rw [hq] at h
    have h2 : underDir (["campaigns"] ++ [n2]) (["campaigns"] ++ n1 :: s) = true := h
    rw [underDir_sibling_false ["campaigns"] s hne] at h2
    exact absurd h2 (by simp)
  · rw [hq] at h; simp [tempCanvasPath] at h
  · rw [hq] at h; simp [tempMaskPath] at h

theorem campaignWrites_self (campaignPath : FPath) :
    ∀ suf : FPath, campaignWrites campaignPath (campaignPath ++ suf) :=
  fun suf => Or.inl (underDir_append campaignPath suf)

/-! ## Claim C2: failure isolation across campaigns -/

/-- Claim C2: in `process_all_campaigns`, an exception inside one
campaign's processing is caught and every subsequent brief is still
processed — the whole run equals continuing the loop on the remaining
briefs from the state the failure left; the completed earlier campaign
keeps its `done` marker and every file under its folder exactly as its
own run left them; and the failed campaign is not marked done — its
marker file at the end of the whole run is exactly what it was before
the run started. -/
theorem failure_isolation (o : RemoteOracle) (b1 b2 : LoadedBrief)
    (rest : List LoadedBrief) (fs fs1 fs2 : FS) (err : PyErr)
    (hp1 : b1.campaignPath = ["campaigns", b1.campaignName])
    (hp2 : b2.campaignPath = ["campaigns", b2.campaignName])
    (hrest : ∀ b ∈ rest, b.campaignPath = ["campaigns", b.campaignName] ∧
        b.campaignName ≠ b1.campaignName ∧ b.campaignName ≠ b2.campaignName)
    (hn21 : b2.campaignName ≠ b1.campaignName)
    (h1 : processSingleCampaign o b1 fs = .ok () fs1)
    (h2 : processSingleCampaign o b2 fs1 = .error err fs2) :
    processAllCampaigns o (b1 :: b2 :: rest) fs = campaignLoop o rest fs2 ∧
    fsRead fs1 (metaPath b1.campaignPath) = some (.metaFile "done") ∧
    (∀ q s, q = b1.campaignPath ++ s →
      fsRead (stateOf (campaignLoop o rest fs2)) q = fsRead fs1 q) ∧
    fsRead (stateOf (campaignLoop o rest fs2)) (metaPath b2.campaignPath) =
      fsRead fs (metaPath b2.campaignPath) := by
  have hrestLoop : ∀ (q : FPath) (nq : String) (s : FPath),
      q = ["campaigns", nq] ++ s →
      (∀ b ∈ rest, b.campaignName ≠ nq) →
      fsRead (stateOf (campaignLoop o rest fs2)) q = fsRead fs2 q := by
    intro q nq s hq hne
    refine preserves_campaignLoop
      (P := fun q' => ∃ b ∈ rest, campaignWrites b.campaignPath q')
      o rest ?_ fs2 q ?_
    · intro b hb
      refine preserves_processSingleCampaign o b ?_ ?_ ?_
      · exact fun suf => ⟨b, hb, campaignWrites_self b.campaignPath suf⟩
      · exact ⟨b, hb, Or.inr (Or.inl rfl)⟩
      · exact ⟨b, hb, Or.inr (Or.inr rfl)⟩
    · rintro ⟨b, hb, hw⟩
      rw [(hrest b hb).1] at hw
      exact campaignWrites_disjoint (hne b hb) s q hq hw
  have hb2frame : ∀ (q : FPath) (s : FPath), q = ["campaigns", b1.campaignName] ++ s →
      fsRead fs2 q = fsRead fs1 q := by
    intro q s hq
    have hpres := preserves_processSingleCampaign
      (P := campaignWrites b2.campaignPath) o b2
      (campaignWrites_self b2.campaignPath)
      (Or.inr (Or.inl rfl)) (Or.inr (Or.inr rfl)) fs1 q
      (by rw [hp2]; exact campaignWrites_disjoint hn21 s q hq)
    rw [h2] at hpres
    exact hpres
  have hb1frame : ∀ (q : FPath) (s : FPath), q = ["campaigns", b2.campaignName] ++ s →
      fsRead fs1 q = fsRead fs q := by
    intro q s hq
    have hpres := preserves_processSingleCampaign
      (P := campaignWrites b1.campaignPath) o b1
      (campaignWrites_self b1.campaignPath)
      (Or.inr (Or.inl rfl)) (Or.inr (Or.inr rfl)) fs q
      (by rw [hp1]; exact campaignWrites_disjoint (Ne.symm hn21) s q hq)
    rw [h1] at hpres
    exact hpres
  refine ⟨?_, psc_ok_marker o b1 fs fs1 h1, ?_, ?_⟩
  · have e0 : processAllCampaigns o (b1 :: b2 :: rest) fs =
        campaignLoop o (b1 :: b2 :: rest) fs := rfl
    rw [e0, campaignLoop_cons, h1]
    show campaignLoop o (b2 :: rest) fs1 = _
    rw [campaignLoop_cons, h2]
    rfl
  · intro q s hq
    rw [hp1] at hq
    rw [hrestLoop q b1.campaignName s hq (fun b hb => (hrest b hb).2.1)]
    exact hb2frame q s hq
  · have hq2 : metaPath b2.campaignPath =
        ["campaigns", b2.campaignName] ++ ["meta.yaml"] := by
      rw [hp2]; rfl
    rw [hrestLoop _ b2.campaignName ["meta.yaml"] hq2
      (fun b hb => (hrest b hb).2.2)]
    rw [psc_error_marker o b2 fs1 fs2 err h2]
    exact hb1frame _ ["meta.yaml"] hq2

/-- Witness for C2: a first campaign with no products succeeds and is
marked done; a second campaign whose only product's asset generation
fails raises; after the whole run the first campaign's marker reads
`done` and the second campaign's marker is absent, as before the run. -/
theorem failure_isolation_witness :
    fsRead [(["campaigns", "c1", "meta.yaml"], FileData.metaFile "done")]
      (metaPath ["campaigns", "c1"]) = some (.metaFile "done") ∧
    fsRead (stateOf (campaignLoop
      ⟨fun _ _ => "", fun _ => "", fun _ _ => "", fun _ => .error 3, fun _ _ => .ok 0,
       fun _ _ _ => .ok 0, fun _ => 0, fun _ => 0, fun _ => 0,
       fun _ _ => 0, fun _ _ => 0⟩ []
      [(["campaigns", "c1", "meta.yaml"], FileData.metaFile "done")]))
      (metaPath ["campaigns", "c2"]) = fsRead ([] : FS) (metaPath ["campaigns", "c2"]) := by
  have h := failure_isolation
    ⟨fun _ _ => "", fun _ => "", fun _ _ => "", fun _ => .error 3, fun _ _ => .ok 0,
     fun _ _ _ => .ok 0, fun _ => 0, fun _ => 0, fun _ => 0,
     fun _ _ => 0, fun _ _ => 0⟩
    ⟨0, "c1", ["campaigns", "c1"], none, none, none, none⟩
    ⟨0, "c2", ["campaigns", "c2"], some ["widget"], none, none, none⟩
    [] [] [(["campaigns", "c1", "meta.yaml"], FileData.metaFile "done")]
    [(["campaigns", "c1", "meta.yaml"], FileData.metaFile "done")]
    (.apiFailure 3) rfl rfl (fun b hb => absurd hb (by simp)) (by decide) rfl rfl
  exact ⟨h.2.1, h.2.2.2⟩

end Cmaker
